import Mathlib

/-! Gear mesh generator of `opengl/glesgears.c` and OpenCL demo of
`opencl/clexample.c`

The larger part of this file is a shallow embedding of the function `gear` and
of the three emission macros `VERTEX`, `NORMAL` and `INDEX` it is written
with; the conventions of the OpenCL part are stated where it starts.

* `GLfloat` values are kept abstract: the generator is written once for any
  carrier `F` that has the arithmetic the C code uses (`+ - * /`, unary minus,
  decimal literals, conversion of a `GLint`, and `cos`, `sin`, `sqrt`, `M_PI`).
  Statements about buffer layout, and about which expression is stored in
  which slot, hold for every such carrier.  Where a statement needs the value
  of an expression it is made on the reals: exact arithmetic, `M_PI` the
  number pi, no rounding, underflow or overflow, and no distinction between
  `float` and `double`.  Only equalities between values the code computes by
  the same expression, and strict signs of quantities far from zero, are
  stated that way; facts that turn on the rounding of binary32 arithmetic
  (whether two nearly equal values differ, whether a small length vanishes,
  whether a quotient has length exactly one) are not stated.
* `GLint` values are integers (`Int`).  The products `teeth * 40` and
  `teeth * 66 * 3` are the mathematical ones (signed overflow is undefined in
  C and is not modelled).  The loop `for (i = 0; i < teeth; i++)` runs
  `teeth.toNat` times.
* `GLushort` values are naturals, reduced modulo `2 ^ 16` where the C code
  converts a slot number to `GLushort`.
* The two `calloc`ed buffers are total maps from slot numbers, zero everywhere
  at the start, and the declared lengths are the fields `nvertices` and
  `nindices`; the write cursors `vt`, `nm`, `ix` are slot numbers.  Each of the
  three macros also records the slot it writes in a log, so that "which slots
  were written, and how often" can be stated.
* The loop body is split at the comments of the source into nine face groups
  (`frontFace`, ..., `insideCylinder`); the locals each group assigns before
  use (`ix0`, ..., `ix5`) are local to the group.
-/

/-! ## The OpenCL demo of `opencl/clexample.c`

`cl_int` and `int` values are integers, reduced to the 32-bit two's
complement range after every arithmetic operation (`wrapInt`).  Host arrays
and device buffers are maps from element numbers; what `malloc` and
`clCreateBuffer` return is a parameter.  The command queue is created without
properties, so the commands run in the order they are enqueued; the order in
which the device runs the work items of one kernel is a parameter of
`Compute`.  The return codes of the OpenCL calls, which the program does not
inspect, are not modelled. -/

namespace ClExample

/-- The value of an integer as a 32-bit two's complement `int`. -/
def wrapInt (z : Int) : Int := (z + 2147483648) % 4294967296 - 2147483648

/-- The constant `kAdd`. -/
def kAdd : Int := 2

/-- The constant `kArraySize`. -/
def kArraySize : Nat := 1024

/-- The assignment `arr[k] = v` on an `int` array or device buffer, which is
a map from element numbers. -/
def put (arr : Nat → Int) (k : Nat) (v : Int) : Nat → Int :=
  fun j => if j = k then v else arr j

/-- Work item `gid` of the kernel `square`. -/
def square (gid : Nat) (ARR : Nat → Int) : Nat → Int :=
  put ARR gid (wrapInt (ARR gid * ARR gid))

/-- Work item `gid` of the kernel `add_arrays`; the result is the new content
of `ARR1`, `ARR2` is only read. -/
def add_arrays (gid : Nat) (ARR1 ARR2 : Nat → Int) : Nat → Int :=
  put ARR1 gid (wrapInt (ARR1 gid + ARR2 gid))

/-- Work item `gid` of the kernel `add_const`. -/
def add_const (gid : Nat) (ARR : Nat → Int) (c : Int) : Nat → Int :=
  put ARR gid (wrapInt (ARR gid + c))

/-- The call `clEnqueueNDRangeKernel` for a one-dimensional range: the work
items listed in `schedule` are run one after the other. -/
def runKernel (schedule : List Nat) (item : Nat → (Nat → Int) → (Nat → Int))
    (mem : Nat → Int) : Nat → Int :=
  schedule.foldl (fun m gid => item gid m) mem

/-- The calls `clEnqueueWriteBuffer` and `clEnqueueReadBuffer` with offset 0:
the first `size` elements of `dst` are replaced by those of `src`. -/
def copyBuffer (size : Nat) (src dst : Nat → Int) : Nat → Int :=
  fun j => if j < size then src j else dst j

/-- The function `Compute`; the result is the content of `out_array` at
return.  `mem1` and `mem2` are the contents of the two device buffers as
`clCreateBuffer` returns them, `s1`, `s2`, `s3` the orders in which the device
runs the work items of the three kernels. -/
def Compute (in_array out_array : Nat → Int) (size : Nat) (mem1 mem2 : Nat → Int)
    (s1 s2 s3 : List Nat) : Nat → Int :=
  let device_mem_1 := copyBuffer size in_array mem1
  let device_mem_2 := copyBuffer size in_array mem2
  let device_mem_1 := runKernel s1 square device_mem_1
  let device_mem_1 := runKernel s2 (fun gid m => add_arrays gid m device_mem_2) device_mem_1
  let device_mem_1 := runKernel s3 (fun gid m => add_const gid m kAdd) device_mem_1
  copyBuffer size device_mem_1 out_array

/-- The loop of `CompareArrays` from element `i` on, with `k` elements left;
the result is the final value of `success`. -/
def compareFrom (arr1 arr2 : Nat → Int) : Nat → Nat → Int
  | 0, _ => 1
  | k + 1, i => if arr1 i ≠ arr2 i then 0 else compareFrom arr1 arr2 k (i + 1)

/-- The function `CompareArrays`. -/
def CompareArrays (arr1 arr2 : Nat → Int) (no_elements : Int) : Int :=
  compareFrom arr1 arr2 no_elements.toNat 0

/-- The loop of `main` that fills `input_arr` and `expected_result_arr`,
started on the contents `input0`, `expected0` that `malloc` returns; the
result is the pair of the two arrays. -/
def mainArrays (input0 expected0 : Nat → Int) : (Nat → Int) × (Nat → Int) :=
  (List.range kArraySize).foldl
    (fun (p : (Nat → Int) × (Nat → Int)) (i : Nat) =>
      (put p.1 i (i : Int),
       put p.2 i (wrapInt (wrapInt (wrapInt ((i : Int) * (i : Int)) + (i : Int)) + kAdd))))
    (input0, expected0)

end ClExample

/-! ## The gear mesh generator: definitions -/

namespace GlesGears

/-- The `math.h` operations and the constant `M_PI` used by `gear`. -/
class GLMath (F : Type) where
  cos : F → F
  sin : F → F
  sqrt : F → F
  M_PI : F

open GLMath

/-- The record `vertex_t`: `GLfloat pos[3]` and `GLfloat norm[3]`. -/
structure vertex_t (F : Type) where
  pos : F × F × F
  norm : F × F × F

/-- The record `gear_t`. -/
structure gear_t (F : Type) where
  vertices : Nat → vertex_t F
  indices : Nat → Nat
  color : F × F × F × F
  nvertices : Int
  nindices : Int
  ibo : Nat

/-- Conversion of a pointer difference to `GLushort`. -/
def toGLushort (n : Nat) : Nat := n % 65536

/-- The buffers under construction together with the three write cursors of
`gear` (as slot numbers) and, for each cursor, the log of slots written. -/
structure GearState (F : Type) where
  vertices : Nat → vertex_t F
  indices : Nat → Nat
  vt : Nat
  nm : Nat
  ix : Nat
  vtLog : List Nat
  nmLog : List Nat
  ixLog : List Nat

/-- Store through a pointer: the buffer with slot `k` replaced by `f` of its
old content. -/
def store {α : Type} (m : Nat → α) (k : Nat) (f : α → α) : Nat → α :=
  fun j => if j = k then f (m j) else m j

/-- The macro `VERTEX(x,y,z)`: writes the position at `vt`, yields the slot
number `vt - gear->vertices` and advances `vt`. -/
def VERTEX {F : Type} (x y z : F) (s : GearState F) : Nat × GearState F :=
  (s.vt,
   { s with
     vertices := store s.vertices s.vt (fun v => { v with pos := (x, y, z) })
     vt := s.vt + 1
     vtLog := s.vtLog ++ [s.vt] })

/-- The macro `NORMAL(x,y,z)`: writes the normal at `nm`, yields the slot
number and advances `nm`. -/
def NORMAL {F : Type} (x y z : F) (s : GearState F) : Nat × GearState F :=
  (s.nm,
   { s with
     vertices := store s.vertices s.nm (fun v => { v with norm := (x, y, z) })
     nm := s.nm + 1
     nmLog := s.nmLog ++ [s.nm] })

/-- One assignment `*ix++ = a`. -/
def putIndex {F : Type} (a : Nat) (s : GearState F) : GearState F :=
  { s with
    indices := store s.indices s.ix (fun _ => a)
    ix := s.ix + 1
    ixLog := s.ixLog ++ [s.ix] }

/-- The macro `INDEX(a,b,c)`: three assignments `*ix++ = _`. -/
def INDEX {F : Type} (a b c : Nat) (s : GearState F) : GearState F :=
  putIndex c (putIndex b (putIndex a s))

/-- The loops `for (j = 0; j < n; j++) { NORMAL(x, y, z); }`. -/
def normalLoop {F : Type} (x y z : F) : Nat → GearState F → GearState F
  | 0, s => s
  | n + 1, s => normalLoop x y z n (NORMAL x y z s).2

/-- The locals of `gear` that the emission code of one tooth reads. -/
structure Locals (F : Type) where
  r0 : F
  r1 : F
  r2 : F
  width : F
  cos_ta : F
  cos_ta_1da : F
  cos_ta_2da : F
  cos_ta_3da : F
  cos_ta_4da : F
  sin_ta : F
  sin_ta_1da : F
  sin_ta_2da : F
  sin_ta_3da : F
  sin_ta_4da : F
  u1 : F
  v1 : F
  u2 : F
  v2 : F

section Generator

variable {F : Type} [Add F] [Sub F] [Mul F] [Div F] [Neg F] [OfScientific F]
  [IntCast F] [GLMath F]

/-- The first part of the loop body of `gear` (source lines 113-132): the
angle of tooth `i`, its cosines and sines, and the two flank directions. -/
def toothLocals (r0 r1 r2 da width : F) (teeth i : Int) : Locals F :=
  let ta : F := (i : F) * 2.0 * M_PI / (teeth : F)
  let cos_ta := cos ta
  let cos_ta_1da := cos (ta + da)
  let cos_ta_2da := cos (ta + ((2 : Int) : F) * da)
  let cos_ta_3da := cos (ta + ((3 : Int) : F) * da)
  let cos_ta_4da := cos (ta + ((4 : Int) : F) * da)
  let sin_ta := sin ta
  let sin_ta_1da := sin (ta + da)
  let sin_ta_2da := sin (ta + ((2 : Int) : F) * da)
  let sin_ta_3da := sin (ta + ((3 : Int) : F) * da)
  let sin_ta_4da := sin (ta + ((4 : Int) : F) * da)
  let u1 := r2 * cos_ta_1da - r1 * cos_ta
  let v1 := r2 * sin_ta_1da - r1 * sin_ta
  let len := sqrt (u1 * u1 + v1 * v1)
  let u1 := u1 / len
  let v1 := v1 / len
  let u2 := r1 * cos_ta_3da - r2 * cos_ta_2da
  let v2 := r1 * sin_ta_3da - r2 * sin_ta_2da
  { r0 := r0, r1 := r1, r2 := r2, width := width,
    cos_ta := cos_ta, cos_ta_1da := cos_ta_1da, cos_ta_2da := cos_ta_2da,
    cos_ta_3da := cos_ta_3da, cos_ta_4da := cos_ta_4da,
    sin_ta := sin_ta, sin_ta_1da := sin_ta_1da, sin_ta_2da := sin_ta_2da,
    sin_ta_3da := sin_ta_3da, sin_ta_4da := sin_ta_4da,
    u1 := u1, v1 := v1, u2 := u2, v2 := v2 }

/-- Source lines 134-147, "front face". -/
def frontFace (c : Locals F) (s : GearState F) : GearState F :=
  let p0 := VERTEX (c.r0 * c.cos_ta) (c.r0 * c.sin_ta) (c.width * 0.5) s
  let ix0 := toGLushort p0.1
  let p1 := VERTEX (c.r1 * c.cos_ta) (c.r1 * c.sin_ta) (c.width * 0.5) p0.2
  let ix1 := toGLushort p1.1
  let p2 := VERTEX (c.r0 * c.cos_ta_2da) (c.r0 * c.sin_ta_2da) (c.width * 0.5) p1.2
  let ix2 := toGLushort p2.1
  let p3 := VERTEX (c.r1 * c.cos_ta_2da) (c.r1 * c.sin_ta_2da) (c.width * 0.5) p2.2
  let ix3 := toGLushort p3.1
  let p4 := VERTEX (c.r0 * c.cos_ta_4da) (c.r0 * c.sin_ta_4da) (c.width * 0.5) p3.2
  let ix4 := toGLushort p4.1
  let p5 := VERTEX (c.r1 * c.cos_ta_4da) (c.r1 * c.sin_ta_4da) (c.width * 0.5) p4.2
  let ix5 := toGLushort p5.1
  let s := normalLoop 0.0 0.0 1.0 6 p5.2
  let s := INDEX ix0 ix1 ix2 s
  let s := INDEX ix1 ix3 ix2 s
  let s := INDEX ix2 ix3 ix4 s
  INDEX ix3 ix5 ix4 s

/-- Source lines 149-158, "front sides of teeth". -/
def frontTeeth (c : Locals F) (s : GearState F) : GearState F :=
  let p0 := VERTEX (c.r1 * c.cos_ta) (c.r1 * c.sin_ta) (c.width * 0.5) s
  let ix0 := toGLushort p0.1
  let p1 := VERTEX (c.r2 * c.cos_ta_1da) (c.r2 * c.sin_ta_1da) (c.width * 0.5) p0.2
  let ix1 := toGLushort p1.1
  let p2 := VERTEX (c.r1 * c.cos_ta_3da) (c.r1 * c.sin_ta_3da) (c.width * 0.5) p1.2
  let ix2 := toGLushort p2.1
  let p3 := VERTEX (c.r2 * c.cos_ta_2da) (c.r2 * c.sin_ta_2da) (c.width * 0.5) p2.2
  let ix3 := toGLushort p3.1
  let s := normalLoop 0.0 0.0 1.0 4 p3.2
  let s := INDEX ix0 ix1 ix2 s
  INDEX ix1 ix3 ix2 s

/-- Source lines 160-173, "back face". -/
def backFace (c : Locals F) (s : GearState F) : GearState F :=
  let p0 := VERTEX (c.r0 * c.cos_ta) (c.r0 * c.sin_ta) (-c.width * 0.5) s
  let ix0 := toGLushort p0.1
  let p1 := VERTEX (c.r1 * c.cos_ta) (c.r1 * c.sin_ta) (-c.width * 0.5) p0.2
  let ix1 := toGLushort p1.1
  let p2 := VERTEX (c.r0 * c.cos_ta_2da) (c.r0 * c.sin_ta_2da) (-c.width * 0.5) p1.2
  let ix2 := toGLushort p2.1
  let p3 := VERTEX (c.r1 * c.cos_ta_2da) (c.r1 * c.sin_ta_2da) (-c.width * 0.5) p2.2
  let ix3 := toGLushort p3.1
  let p4 := VERTEX (c.r0 * c.cos_ta_4da) (c.r0 * c.sin_ta_4da) (-c.width * 0.5) p3.2
  let ix4 := toGLushort p4.1
  let p5 := VERTEX (c.r1 * c.cos_ta_4da) (c.r1 * c.sin_ta_4da) (-c.width * 0.5) p4.2
  let ix5 := toGLushort p5.1
  let s := normalLoop 0.0 0.0 (-1.0) 6 p5.2
  let s := INDEX ix0 ix1 ix2 s
  let s := INDEX ix1 ix3 ix2 s
  let s := INDEX ix2 ix3 ix4 s
  INDEX ix3 ix5 ix4 s

/-- Source lines 175-184, "back sides of teeth". -/
def backTeeth (c : Locals F) (s : GearState F) : GearState F :=
  let p0 := VERTEX (c.r1 * c.cos_ta_3da) (c.r1 * c.sin_ta_3da) (-c.width * 0.5) s
  let ix0 := toGLushort p0.1
  let p1 := VERTEX (c.r2 * c.cos_ta_2da) (c.r2 * c.sin_ta_2da) (-c.width * 0.5) p0.2
  let ix1 := toGLushort p1.1
  let p2 := VERTEX (c.r1 * c.cos_ta) (c.r1 * c.sin_ta) (-c.width * 0.5) p1.2
  let ix2 := toGLushort p2.1
  let p3 := VERTEX (c.r2 * c.cos_ta_1da) (c.r2 * c.sin_ta_1da) (-c.width * 0.5) p2.2
  let ix3 := toGLushort p3.1
  let s := normalLoop 0.0 0.0 (-1.0) 4 p3.2
  let s := INDEX ix0 ix1 ix2 s
  INDEX ix1 ix3 ix2 s

/-- Source lines 187-195, first of the "outward faces of teeth". -/
def outward1 (c : Locals F) (s : GearState F) : GearState F :=
  let p0 := VERTEX (c.r1 * c.cos_ta) (c.r1 * c.sin_ta) (c.width * 0.5) s
  let ix0 := toGLushort p0.1
  let p1 := VERTEX (c.r1 * c.cos_ta) (c.r1 * c.sin_ta) (-c.width * 0.5) p0.2
  let ix1 := toGLushort p1.1
  let p2 := VERTEX (c.r2 * c.cos_ta_1da) (c.r2 * c.sin_ta_1da) (c.width * 0.5) p1.2
  let ix2 := toGLushort p2.1
  let p3 := VERTEX (c.r2 * c.cos_ta_1da) (c.r2 * c.sin_ta_1da) (-c.width * 0.5) p2.2
  let ix3 := toGLushort p3.1
  let s := normalLoop c.v1 (-c.u1) 0.0 4 p3.2
  let s := INDEX ix0 ix1 ix2 s
  INDEX ix1 ix3 ix2 s

/-- Source lines 196-204, second of the "outward faces of teeth". -/
def outward2 (c : Locals F) (s : GearState F) : GearState F :=
  let p0 := VERTEX (c.r2 * c.cos_ta_1da) (c.r2 * c.sin_ta_1da) (c.width * 0.5) s
  let ix0 := toGLushort p0.1
  let p1 := VERTEX (c.r2 * c.cos_ta_1da) (c.r2 * c.sin_ta_1da) (-c.width * 0.5) p0.2
  let ix1 := toGLushort p1.1
  let p2 := VERTEX (c.r2 * c.cos_ta_2da) (c.r2 * c.sin_ta_2da) (c.width * 0.5) p1.2
  let ix2 := toGLushort p2.1
  let p3 := VERTEX (c.r2 * c.cos_ta_2da) (c.r2 * c.sin_ta_2da) (-c.width * 0.5) p2.2
  let ix3 := toGLushort p3.1
  let s := normalLoop c.cos_ta c.sin_ta 0.0 4 p3.2
  let s := INDEX ix0 ix1 ix2 s
  INDEX ix1 ix3 ix2 s

/-- Source lines 205-213, third of the "outward faces of teeth". -/
def outward3 (c : Locals F) (s : GearState F) : GearState F :=
  let p0 := VERTEX (c.r2 * c.cos_ta_2da) (c.r2 * c.sin_ta_2da) (c.width * 0.5) s
  let ix0 := toGLushort p0.1
  let p1 := VERTEX (c.r2 * c.cos_ta_2da) (c.r2 * c.sin_ta_2da) (-c.width * 0.5) p0.2
  let ix1 := toGLushort p1.1
  let p2 := VERTEX (c.r1 * c.cos_ta_3da) (c.r1 * c.sin_ta_3da) (c.width * 0.5) p1.2
  let ix2 := toGLushort p2.1
  let p3 := VERTEX (c.r1 * c.cos_ta_3da) (c.r1 * c.sin_ta_3da) (-c.width * 0.5) p2.2
  let ix3 := toGLushort p3.1
  let s := normalLoop c.v2 (-c.u2) 0.0 4 p3.2
  let s := INDEX ix0 ix1 ix2 s
  INDEX ix1 ix3 ix2 s

/-- Source lines 214-222, fourth of the "outward faces of teeth". -/
def outward4 (c : Locals F) (s : GearState F) : GearState F :=
  let p0 := VERTEX (c.r1 * c.cos_ta_3da) (c.r1 * c.sin_ta_3da) (c.width * 0.5) s
  let ix0 := toGLushort p0.1
  let p1 := VERTEX (c.r1 * c.cos_ta_3da) (c.r1 * c.sin_ta_3da) (-c.width * 0.5) p0.2
  let ix1 := toGLushort p1.1
  let p2 := VERTEX (c.r1 * c.cos_ta_4da) (c.r1 * c.sin_ta_4da) (c.width * 0.5) p1.2
  let ix2 := toGLushort p2.1
  let p3 := VERTEX (c.r1 * c.cos_ta_4da) (c.r1 * c.sin_ta_4da) (-c.width * 0.5) p2.2
  let ix3 := toGLushort p3.1
  let s := normalLoop c.cos_ta c.sin_ta 0.0 4 p3.2
  let s := INDEX ix0 ix1 ix2 s
  INDEX ix1 ix3 ix2 s

/-- Source lines 224-234, "inside radius cylinder". -/
def insideCylinder (c : Locals F) (s : GearState F) : GearState F :=
  let p0 := VERTEX (c.r0 * c.cos_ta) (c.r0 * c.sin_ta) (-c.width * 0.5) s
  let ix0 := toGLushort p0.1
  let p1 := VERTEX (c.r0 * c.cos_ta) (c.r0 * c.sin_ta) (c.width * 0.5) p0.2
  let ix1 := toGLushort p1.1
  let p2 := VERTEX (c.r0 * c.cos_ta_4da) (c.r0 * c.sin_ta_4da) (-c.width * 0.5) p1.2
  let ix2 := toGLushort p2.1
  let p3 := VERTEX (c.r0 * c.cos_ta_4da) (c.r0 * c.sin_ta_4da) (c.width * 0.5) p2.2
  let ix3 := toGLushort p3.1
  let s := (NORMAL (-c.cos_ta) (-c.sin_ta) 0.0 p3.2).2
  let s := (NORMAL (-c.cos_ta) (-c.sin_ta) 0.0 s).2
  let s := (NORMAL (-c.cos_ta_4da) (-c.sin_ta_4da) 0.0 s).2
  let s := (NORMAL (-c.cos_ta_4da) (-c.sin_ta_4da) 0.0 s).2
  let s := INDEX ix0 ix1 ix2 s
  INDEX ix1 ix3 ix2 s

/-- The nine face groups of one tooth, in the order the loop body runs
them. -/
def faceGroups (c : Locals F) : List (GearState F → GearState F) :=
  [frontFace c, frontTeeth c, backFace c, backTeeth c,
   outward1 c, outward2 c, outward3 c, outward4 c, insideCylinder c]

/-- The emission part of the loop body (source lines 134-234): the nine face
groups one after the other. -/
def emitTooth (c : Locals F) (s : GearState F) : GearState F :=
  (faceGroups c).foldl (fun s f => f s) s

/-- The state at loop entry: zeroed buffers, all cursors at the start. -/
def gearInit : GearState F :=
  { vertices := fun _ => { pos := (0.0, 0.0, 0.0), norm := (0.0, 0.0, 0.0) }
    indices := fun _ => 0
    vt := 0
    nm := 0
    ix := 0
    vtLog := []
    nmLog := []
    ixLog := [] }

/-- The state after the first `k` iterations of `for (i = 0; i < teeth; i++)`. -/
def gearLoop (r0 r1 r2 da width : F) (teeth : Int) (k : Nat) : GearState F :=
  (List.range k).foldl
    (fun (s : GearState F) (i : Nat) =>
      emitTooth (toothLocals r0 r1 r2 da width teeth (i : Int)) s)
    gearInit

/-- The radius `r1` of `gear`. -/
def gearR1 (outer_radius tooth_depth : F) : F := outer_radius - tooth_depth / 2.0

/-- The radius `r2` of `gear`. -/
def gearR2 (outer_radius tooth_depth : F) : F := outer_radius + tooth_depth / 2.0

/-- The angle step `da` of `gear`. -/
def gearDa (teeth : Int) : F := 2.0 * M_PI / (teeth : F) / 4.0

/-- The state after `k` iterations of the tooth loop of
`gear(inner_radius, outer_radius, width, teeth, tooth_depth, _)`. -/
def gearAfter (inner_radius outer_radius width : F) (teeth : Int) (tooth_depth : F)
    (k : Nat) : GearState F :=
  gearLoop inner_radius (gearR1 outer_radius tooth_depth) (gearR2 outer_radius tooth_depth)
    (gearDa teeth) width teeth k

/-- The locals of tooth `i` of
`gear(inner_radius, outer_radius, width, teeth, tooth_depth, _)`. -/
def gearLocals (inner_radius outer_radius width : F) (teeth : Int) (tooth_depth : F)
    (i : Int) : Locals F :=
  toothLocals inner_radius (gearR1 outer_radius tooth_depth) (gearR2 outer_radius tooth_depth)
    (gearDa teeth) width teeth i

/-- The state in which `gear` leaves its loop: the loop runs for
`i = 0, ..., teeth - 1`, not at all when `teeth <= 0`. -/
def gearFinal (inner_radius outer_radius width : F) (teeth : Int) (tooth_depth : F) :
    GearState F :=
  gearAfter inner_radius outer_radius width teeth tooth_depth teeth.toNat

/-- The function `gear`. -/
def gear (inner_radius outer_radius width : F) (teeth : Int) (tooth_depth : F)
    (color : F × F × F × F) : gear_t F :=
  let s := gearFinal inner_radius outer_radius width teeth tooth_depth
  { vertices := s.vertices
    indices := s.indices
    color := color
    nvertices := teeth * 40
    nindices := teeth * 66 * 3
    ibo := 0 }

/-- The element count `draw_gear` passes to `glDrawElements`: the `int`
quotient `gear->nindices/3`, which rounds toward zero. -/
def drawCount (g : gear_t F) : Int := Int.tdiv g.nindices 3

end Generator

/-! ## Descriptions of what the generator writes

The definitions below are not part of the program: they are the tables and
notions the theorems are stated with. -/

/-- The positions held by the buffer `vertices`. -/
def posOf {F : Type} (s : GearState F) : Nat → F × F × F := fun k => (s.vertices k).pos

/-- The normals held by the buffer `vertices`. -/
def normOf {F : Type} (s : GearState F) : Nat → F × F × F := fun k => (s.vertices k).norm

/-- The buffer `m` after the values `vs` are stored in consecutive slots from
slot `b` on. -/
def writeBlock {α : Type} (m : Nat → α) (b : Nat) : List α → Nat → α
  | [] => m
  | v :: vs => writeBlock (store m b (fun _ => v)) (b + 1) vs

/-- What a piece of emission code does to every state it is run in: it
advances the cursors by the lengths of `ps`, `ns`, `is`, logs the slots passed
over, stores the positions `ps` from `vt` on, the normals `ns` from `nm` on, and
from `ix` on the indices `vt + o` (as `GLushort`) for the offsets `o` of `is`. -/
structure Emits {F : Type} (f : GearState F → GearState F) (ps ns : List (F × F × F))
    (is : List Nat) : Prop where
  vt : ∀ s, (f s).vt = s.vt + ps.length
  nm : ∀ s, (f s).nm = s.nm + ns.length
  ix : ∀ s, (f s).ix = s.ix + is.length
  vtLog : ∀ s, (f s).vtLog = s.vtLog ++ List.range' s.vt ps.length
  nmLog : ∀ s, (f s).nmLog = s.nmLog ++ List.range' s.nm ns.length
  ixLog : ∀ s, (f s).ixLog = s.ixLog ++ List.range' s.ix is.length
  pos : ∀ s, posOf (f s) = writeBlock (posOf s) s.vt ps
  norm : ∀ s, normOf (f s) = writeBlock (normOf s) s.nm ns
  idx : ∀ s, (f s).indices
    = writeBlock s.indices s.ix (is.map (fun o => toGLushort (s.vt + o)))

section Tables

variable {F : Type} [Mul F] [Neg F] [OfScientific F]

/-- The 40 positions one tooth stores, in slot order. -/
def toothPos (c : Locals F) : List (F × F × F) :=
  [(c.r0 * c.cos_ta, c.r0 * c.sin_ta, c.width * 0.5),
   (c.r1 * c.cos_ta, c.r1 * c.sin_ta, c.width * 0.5),
   (c.r0 * c.cos_ta_2da, c.r0 * c.sin_ta_2da, c.width * 0.5),
   (c.r1 * c.cos_ta_2da, c.r1 * c.sin_ta_2da, c.width * 0.5),
   (c.r0 * c.cos_ta_4da, c.r0 * c.sin_ta_4da, c.width * 0.5),
   (c.r1 * c.cos_ta_4da, c.r1 * c.sin_ta_4da, c.width * 0.5),
   (c.r1 * c.cos_ta, c.r1 * c.sin_ta, c.width * 0.5),
   (c.r2 * c.cos_ta_1da, c.r2 * c.sin_ta_1da, c.width * 0.5),
   (c.r1 * c.cos_ta_3da, c.r1 * c.sin_ta_3da, c.width * 0.5),
   (c.r2 * c.cos_ta_2da, c.r2 * c.sin_ta_2da, c.width * 0.5),
   (c.r0 * c.cos_ta, c.r0 * c.sin_ta, -c.width * 0.5),
   (c.r1 * c.cos_ta, c.r1 * c.sin_ta, -c.width * 0.5),
   (c.r0 * c.cos_ta_2da, c.r0 * c.sin_ta_2da, -c.width * 0.5),
   (c.r1 * c.cos_ta_2da, c.r1 * c.sin_ta_2da, -c.width * 0.5),
   (c.r0 * c.cos_ta_4da, c.r0 * c.sin_ta_4da, -c.width * 0.5),
   (c.r1 * c.cos_ta_4da, c.r1 * c.sin_ta_4da, -c.width * 0.5),
   (c.r1 * c.cos_ta_3da, c.r1 * c.sin_ta_3da, -c.width * 0.5),
   (c.r2 * c.cos_ta_2da, c.r2 * c.sin_ta_2da, -c.width * 0.5),
   (c.r1 * c.cos_ta, c.r1 * c.sin_ta, -c.width * 0.5),
   (c.r2 * c.cos_ta_1da, c.r2 * c.sin_ta_1da, -c.width * 0.5),
   (c.r1 * c.cos_ta, c.r1 * c.sin_ta, c.width * 0.5),
   (c.r1 * c.cos_ta, c.r1 * c.sin_ta, -c.width * 0.5),
   (c.r2 * c.cos_ta_1da, c.r2 * c.sin_ta_1da, c.width * 0.5),
   (c.r2 * c.cos_ta_1da, c.r2 * c.sin_ta_1da, -c.width * 0.5),
   (c.r2 * c.cos_ta_1da, c.r2 * c.sin_ta_1da, c.width * 0.5),
   (c.r2 * c.cos_ta_1da, c.r2 * c.sin_ta_1da, -c.width * 0.5),
   (c.r2 * c.cos_ta_2da, c.r2 * c.sin_ta_2da, c.width * 0.5),
   (c.r2 * c.cos_ta_2da, c.r2 * c.sin_ta_2da, -c.width * 0.5),
   (c.r2 * c.cos_ta_2da, c.r2 * c.sin_ta_2da, c.width * 0.5),
   (c.r2 * c.cos_ta_2da, c.r2 * c.sin_ta_2da, -c.width * 0.5),
   (c.r1 * c.cos_ta_3da, c.r1 * c.sin_ta_3da, c.width * 0.5),
   (c.r1 * c.cos_ta_3da, c.r1 * c.sin_ta_3da, -c.width * 0.5),
   (c.r1 * c.cos_ta_3da, c.r1 * c.sin_ta_3da, c.width * 0.5),
   (c.r1 * c.cos_ta_3da, c.r1 * c.sin_ta_3da, -c.width * 0.5),
   (c.r1 * c.cos_ta_4da, c.r1 * c.sin_ta_4da, c.width * 0.5),
   (c.r1 * c.cos_ta_4da, c.r1 * c.sin_ta_4da, -c.width * 0.5),
   (c.r0 * c.cos_ta, c.r0 * c.sin_ta, -c.width * 0.5),
   (c.r0 * c.cos_ta, c.r0 * c.sin_ta, c.width * 0.5),
   (c.r0 * c.cos_ta_4da, c.r0 * c.sin_ta_4da, -c.width * 0.5),
   (c.r0 * c.cos_ta_4da, c.r0 * c.sin_ta_4da, c.width * 0.5)]

/-- The 40 normals one tooth stores, in slot order. -/
def toothNorm (c : Locals F) : List (F × F × F) :=
  [(0.0, 0.0, 1.0),
   (0.0, 0.0, 1.0),
   (0.0, 0.0, 1.0),
   (0.0, 0.0, 1.0),
   (0.0, 0.0, 1.0),
   (0.0, 0.0, 1.0),
   (0.0, 0.0, 1.0),
   (0.0, 0.0, 1.0),
   (0.0, 0.0, 1.0),
   (0.0, 0.0, 1.0),
   (0.0, 0.0, -1.0),
   (0.0, 0.0, -1.0),
   (0.0, 0.0, -1.0),
   (0.0, 0.0, -1.0),
   (0.0, 0.0, -1.0),
   (0.0, 0.0, -1.0),
   (0.0, 0.0, -1.0),
   (0.0, 0.0, -1.0),
   (0.0, 0.0, -1.0),
   (0.0, 0.0, -1.0),
   (c.v1, -c.u1, 0.0),
   (c.v1, -c.u1, 0.0),
   (c.v1, -c.u1, 0.0),
   (c.v1, -c.u1, 0.0),
   (c.cos_ta, c.sin_ta, 0.0),
   (c.cos_ta, c.sin_ta, 0.0),
   (c.cos_ta, c.sin_ta, 0.0),
   (c.cos_ta, c.sin_ta, 0.0),
   (c.v2, -c.u2, 0.0),
   (c.v2, -c.u2, 0.0),
   (c.v2, -c.u2, 0.0),
   (c.v2, -c.u2, 0.0),
   (c.cos_ta, c.sin_ta, 0.0),
   (c.cos_ta, c.sin_ta, 0.0),
   (c.cos_ta, c.sin_ta, 0.0),
   (c.cos_ta, c.sin_ta, 0.0),
   (-c.cos_ta, -c.sin_ta, 0.0),
   (-c.cos_ta, -c.sin_ta, 0.0),
   (-c.cos_ta_4da, -c.sin_ta_4da, 0.0),
   (-c.cos_ta_4da, -c.sin_ta_4da, 0.0)]

end Tables

/-- The 66 index entries one tooth stores, as offsets from the first slot of
the tooth. -/
def toothIdx : List Nat :=
  [0, 1, 2, 1, 3, 2, 2, 3, 4, 3, 5, 4,
   6, 7, 8, 7, 9, 8, 10, 11, 12, 11, 13, 12,
   12, 13, 14, 13, 15, 14, 16, 17, 18, 17, 19, 18,
   20, 21, 22, 21, 23, 22, 24, 25, 26, 25, 27, 26,
   28, 29, 30, 29, 31, 30, 32, 33, 34, 33, 35, 34,
   36, 37, 38, 37, 39, 38]

/-- The number of `VERTEX` calls, and of `NORMAL` calls, in each face group. -/
def groupSizes : List Nat := [6, 4, 6, 4, 4, 4, 4, 4, 4]

/-- For each of the 40 slots of a tooth, a slot of the same tooth that holds
the same `x` and `y` at `z = -width * 0.5`. -/
def mirrorSlot : List Nat :=
  [10, 11, 12, 13, 14, 15, 18, 19, 16, 17,
   10, 11, 12, 13, 14, 15, 16, 17, 18, 19,
   21, 21, 23, 23, 25, 25, 27, 27, 29, 29, 31, 31, 33, 33, 35, 35,
   36, 36, 38, 38]

/-- Exact real arithmetic as a carrier for `GLfloat`, with `M_PI` the number
pi.  It has no rounding, underflow or overflow, so it says nothing about
effects of binary32 arithmetic. -/
noncomputable instance : GLMath ℝ where
  cos := Real.cos
  sin := Real.sin
  sqrt := Real.sqrt
  M_PI := Real.pi

/-- The angle `ta = i * 2 * pi / n` of tooth `i`, in exact arithmetic. -/
noncomputable def realTa (n i : Nat) : ℝ := (i : ℝ) * 2 * Real.pi / (n : ℝ)

/-- The angle step `da = 2 * pi / n / 4`, in exact arithmetic. -/
noncomputable def realDa (n : Nat) : ℝ := 2 * Real.pi / (n : ℝ) / 4

/-- The eleven quads of one tooth: the slot offsets of their corners
`(a, b, c, d)`, in the order the corners are emitted. -/
def toothQuads : List (Nat × Nat × Nat × Nat) :=
  [(0, 1, 2, 3), (2, 3, 4, 5), (6, 7, 8, 9), (10, 11, 12, 13), (12, 13, 14, 15),
   (16, 17, 18, 19), (20, 21, 22, 23), (24, 25, 26, 27), (28, 29, 30, 31),
   (32, 33, 34, 35), (36, 37, 38, 39)]

/-- The index entries of a list of quads under the convention
`(a, b, c), (b, d, c)`. -/
def quadTriangles : List (Nat × Nat × Nat × Nat) → List Nat
  | [] => []
  | (a, b, c, d) :: qs => a :: b :: c :: b :: d :: c :: quadTriangles qs

/-- The z component of `(b - a) x (c - a)`. -/
def crossZ {F : Type} [Sub F] [Mul F] (a b c : F × F × F) : F :=
  (b.1 - a.1) * (c.2.1 - a.2.1) - (b.2.1 - a.2.1) * (c.1 - a.1)

/-- The z component of the geometric normal `(b - a) x (c - a)` of triangle
`t` of a mesh, whose corners `a`, `b`, `c` are the vertices that the index
entries `3 t`, `3 t + 1`, `3 t + 2` refer to. -/
def triangleCrossZ {F : Type} [Sub F] [Mul F] (g : gear_t F) (t : Nat) : F :=
  crossZ (g.vertices (g.indices (3 * t))).pos (g.vertices (g.indices (3 * t + 1))).pos
    (g.vertices (g.indices (3 * t + 2))).pos

/-! ## Lemmas on the emission macros -/

theorem writeBlock_append {α : Type} (m : Nat → α) (b : Nat) (vs ws : List α) :
    writeBlock m b (vs ++ ws) = writeBlock (writeBlock m b vs) (b + vs.length) ws := by
  induction vs generalizing m b with
  | nil => rfl
  | cons v vs ih =>
    show writeBlock (store m b fun _ => v) (b + 1) (vs ++ ws) = _
    rw [ih]
    simp only [writeBlock, List.length_cons]
    rw [show b + 1 + vs.length = b + (vs.length + 1) by omega]

theorem writeBlock_of_lt {α : Type} (m : Nat → α) (b : Nat) (vs : List α) (k : Nat)
    (h : k < b) : writeBlock m b vs k = m k := by
  induction vs generalizing m b with
  | nil => rfl
  | cons v vs ih =>
    simp only [writeBlock]
    rw [ih _ _ (by omega)]
    simp [store, Nat.ne_of_lt h]

theorem writeBlock_of_ge {α : Type} (m : Nat → α) (b : Nat) (vs : List α) (k : Nat)
    (h : b + vs.length ≤ k) : writeBlock m b vs k = m k := by
  induction vs generalizing m b with
  | nil => rfl
  | cons v vs ih =>
    simp only [writeBlock]
    simp only [List.length_cons] at h
    rw [ih _ _ (by omega)]
    have : k ≠ b := by omega
    simp [store, this]

theorem writeBlock_at {α : Type} (m : Nat → α) (b : Nat) (vs : List α) (j : Nat)
    (h : j < vs.length) : writeBlock m b vs (b + j) = vs.get ⟨j, h⟩ := by
  induction vs generalizing m b j with
  | nil => simp at h
  | cons v vs ih =>
    simp only [writeBlock]
    cases j with
    | zero =>
      show writeBlock _ (b + 1) vs b = _
      rw [writeBlock_of_lt _ (b + 1) _ _ (Nat.lt_succ_self b)]
      simp [store]
    | succ j =>
      have h2 : j < vs.length := by simpa using h
      have := ih (store m b (fun _ => v)) (b + 1) j h2
      rw [show b + (j + 1) = b + 1 + j by omega, this]
      rfl

section
variable {F : Type}

theorem posOf_VERTEX (x y z : F) (s : GearState F) :
    posOf (VERTEX x y z s).2 = store (posOf s) s.vt (fun _ => (x, y, z)) := by
  funext j
  simp only [posOf, VERTEX, store]
  split <;> rfl

theorem normOf_VERTEX (x y z : F) (s : GearState F) :
    normOf (VERTEX x y z s).2 = normOf s := by
  funext j
  simp only [normOf, VERTEX, store]
  split <;> rfl

theorem posOf_NORMAL (x y z : F) (s : GearState F) :
    posOf (NORMAL x y z s).2 = posOf s := by
  funext j
  simp only [posOf, NORMAL, store]
  split <;> rfl

theorem normOf_NORMAL (x y z : F) (s : GearState F) :
    normOf (NORMAL x y z s).2 = store (normOf s) s.nm (fun _ => (x, y, z)) := by
  funext j
  simp only [normOf, NORMAL, store]
  split <;> rfl

theorem posOf_normalLoop (x y z : F) (n : Nat) (s : GearState F) :
    posOf (normalLoop x y z n s) = posOf s := by
  induction n generalizing s with
  | zero => rfl
  | succ n ih => rw [normalLoop, ih, posOf_NORMAL]

theorem normOf_normalLoop (x y z : F) (n : Nat) (s : GearState F) :
    normOf (normalLoop x y z n s) = writeBlock (normOf s) s.nm (List.replicate n (x, y, z)) := by
  induction n generalizing s with
  | zero => rfl
  | succ n ih => rw [normalLoop, ih, normOf_NORMAL]; rfl

theorem posOf_INDEX (a b c : Nat) (s : GearState F) : posOf (INDEX a b c s) = posOf s := rfl
theorem normOf_INDEX (a b c : Nat) (s : GearState F) : normOf (INDEX a b c s) = normOf s := rfl
theorem VERTEX_vt (x y z : F) (s : GearState F) : (VERTEX x y z s).2.vt = s.vt + 1 := rfl
theorem VERTEX_nm (x y z : F) (s : GearState F) : (VERTEX x y z s).2.nm = s.nm := rfl
theorem NORMAL_nm (x y z : F) (s : GearState F) : (NORMAL x y z s).2.nm = s.nm + 1 := rfl

theorem Emits.comp {f g : GearState F → GearState F} {ps ns ps2 ns2 : List (F × F × F)}
    {is is2 : List Nat} (hf : Emits f ps ns is) (hg : Emits g ps2 ns2 is2) :
    Emits (fun s => g (f s)) (ps ++ ps2) (ns ++ ns2) (is ++ is2.map (fun o => ps.length + o)) where
  vt s := by simp only [hg.vt, hf.vt, List.length_append]; omega
  nm s := by simp only [hg.nm, hf.nm, List.length_append]; omega
  ix s := by simp only [hg.ix, hf.ix, List.length_append, List.length_map]; omega
  vtLog s := by
    rw [hg.vtLog, hf.vtLog, hf.vt, List.length_append, List.append_assoc, List.range'_append_1, Nat.add_comm]
  nmLog s := by
    rw [hg.nmLog, hf.nmLog, hf.nm, List.length_append, List.append_assoc, List.range'_append_1, Nat.add_comm]
  ixLog s := by
    rw [hg.ixLog, hf.ixLog, hf.ix, List.length_append, List.length_map, List.append_assoc,
      List.range'_append_1, Nat.add_comm]
  pos s := by rw [hg.pos, hf.pos, hf.vt, writeBlock_append]
  norm s := by rw [hg.norm, hf.norm, hf.nm, writeBlock_append]
  idx s := by
    rw [hg.idx, hf.idx, hf.ix, hf.vt, List.map_append, writeBlock_append, List.length_map,
      List.map_map]
    have h : List.map ((fun o => toGLushort (s.vt + o)) ∘ fun o => ps.length + o) is2
        = List.map (fun o => toGLushort (s.vt + ps.length + o)) is2 :=
      List.map_congr_left (fun o _ => by simp only [Function.comp, Nat.add_assoc])
    rw [h]
end

theorem append_eq_foldl_snoc (init l : List Nat) :
    init ++ l = l.foldl (fun acc k => acc ++ [k]) init := by
  induction l generalizing init with
  | nil => simp
  | cons a l ih => rw [List.foldl_cons, ← ih]; simp

section FrontLemmas

variable {F : Type} [Mul F] [OfScientific F]

theorem frontFace_emits (c : Locals F) :
    Emits (frontFace c)
    [(c.r0 * c.cos_ta, c.r0 * c.sin_ta, c.width * 0.5),
     (c.r1 * c.cos_ta, c.r1 * c.sin_ta, c.width * 0.5),
     (c.r0 * c.cos_ta_2da, c.r0 * c.sin_ta_2da, c.width * 0.5),
     (c.r1 * c.cos_ta_2da, c.r1 * c.sin_ta_2da, c.width * 0.5),
     (c.r0 * c.cos_ta_4da, c.r0 * c.sin_ta_4da, c.width * 0.5),
     (c.r1 * c.cos_ta_4da, c.r1 * c.sin_ta_4da, c.width * 0.5)]
    (List.replicate 6 (0.0, 0.0, 1.0))
    [0, 1, 2, 1, 3, 2, 2, 3, 4, 3, 5, 4] := by
  refine ⟨?_, ?_, ?_, ?_, ?_, ?_, ?_, ?_, ?_⟩ <;> intro s
  · rfl
  · rfl
  · rfl
  · rw [append_eq_foldl_snoc]; rfl
  · rw [append_eq_foldl_snoc]; rfl
  · rw [append_eq_foldl_snoc]; rfl
  · simp only [frontFace, posOf_INDEX, posOf_normalLoop, posOf_NORMAL, posOf_VERTEX, VERTEX_vt]
    rfl
  · simp only [frontFace, normOf_INDEX, normOf_normalLoop, normOf_NORMAL, normOf_VERTEX, VERTEX_nm,
      NORMAL_nm]
  · rfl

theorem frontTeeth_emits (c : Locals F) :
    Emits (frontTeeth c)
    [(c.r1 * c.cos_ta, c.r1 * c.sin_ta, c.width * 0.5),
     (c.r2 * c.cos_ta_1da, c.r2 * c.sin_ta_1da, c.width * 0.5),
     (c.r1 * c.cos_ta_3da, c.r1 * c.sin_ta_3da, c.width * 0.5),
     (c.r2 * c.cos_ta_2da, c.r2 * c.sin_ta_2da, c.width * 0.5)]
    (List.replicate 4 (0.0, 0.0, 1.0))
    [0, 1, 2, 1, 3, 2] := by
  refine ⟨?_, ?_, ?_, ?_, ?_, ?_, ?_, ?_, ?_⟩ <;> intro s
  · rfl
  · rfl
  · rfl
  · rw [append_eq_foldl_snoc]; rfl
  · rw [append_eq_foldl_snoc]; rfl
  · rw [append_eq_foldl_snoc]; rfl
  · simp only [frontTeeth, posOf_INDEX, posOf_normalLoop, posOf_NORMAL, posOf_VERTEX, VERTEX_vt]
    rfl
  · simp only [frontTeeth, normOf_INDEX, normOf_normalLoop, normOf_NORMAL, normOf_VERTEX, VERTEX_nm,
      NORMAL_nm]
  · rfl

end FrontLemmas

section GroupLemmas

variable {F : Type} [Mul F] [Neg F] [OfScientific F]

theorem backFace_emits (c : Locals F) :
    Emits (backFace c)
    [(c.r0 * c.cos_ta, c.r0 * c.sin_ta, -c.width * 0.5),
     (c.r1 * c.cos_ta, c.r1 * c.sin_ta, -c.width * 0.5),
     (c.r0 * c.cos_ta_2da, c.r0 * c.sin_ta_2da, -c.width * 0.5),
     (c.r1 * c.cos_ta_2da, c.r1 * c.sin_ta_2da, -c.width * 0.5),
     (c.r0 * c.cos_ta_4da, c.r0 * c.sin_ta_4da, -c.width * 0.5),
     (c.r1 * c.cos_ta_4da, c.r1 * c.sin_ta_4da, -c.width * 0.5)]
    (List.replicate 6 (0.0, 0.0, -1.0))
    [0, 1, 2, 1, 3, 2, 2, 3, 4, 3, 5, 4] := by
  refine ⟨?_, ?_, ?_, ?_, ?_, ?_, ?_, ?_, ?_⟩ <;> intro s
  · rfl
  · rfl
  · rfl
  · rw [append_eq_foldl_snoc]; rfl
  · rw [append_eq_foldl_snoc]; rfl
  · rw [append_eq_foldl_snoc]; rfl
  · simp only [backFace, posOf_INDEX, posOf_normalLoop, posOf_NORMAL, posOf_VERTEX, VERTEX_vt]
    rfl
  · simp only [backFace, normOf_INDEX, normOf_normalLoop, normOf_NORMAL, normOf_VERTEX, VERTEX_nm,
      NORMAL_nm]
  · rfl

theorem backTeeth_emits (c : Locals F) :
    Emits (backTeeth c)
    [(c.r1 * c.cos_ta_3da, c.r1 * c.sin_ta_3da, -c.width * 0.5),
     (c.r2 * c.cos_ta_2da, c.r2 * c.sin_ta_2da, -c.width * 0.5),
     (c.r1 * c.cos_ta, c.r1 * c.sin_ta, -c.width * 0.5),
     (c.r2 * c.cos_ta_1da, c.r2 * c.sin_ta_1da, -c.width * 0.5)]
    (List.replicate 4 (0.0, 0.0, -1.0))
    [0, 1, 2, 1, 3, 2] := by
  refine ⟨?_, ?_, ?_, ?_, ?_, ?_, ?_, ?_, ?_⟩ <;> intro s
  · rfl
  · rfl
  · rfl
  · rw [append_eq_foldl_snoc]; rfl
  · rw [append_eq_foldl_snoc]; rfl
  · rw [append_eq_foldl_snoc]; rfl
  · simp only [backTeeth, posOf_INDEX, posOf_normalLoop, posOf_NORMAL, posOf_VERTEX, VERTEX_vt]
    rfl
  · simp only [backTeeth, normOf_INDEX, normOf_normalLoop, normOf_NORMAL, normOf_VERTEX, VERTEX_nm,
      NORMAL_nm]
  · rfl

theorem outward1_emits (c : Locals F) :
    Emits (outward1 c)
    [(c.r1 * c.cos_ta, c.r1 * c.sin_ta, c.width * 0.5),
     (c.r1 * c.cos_ta, c.r1 * c.sin_ta, -c.width * 0.5),
     (c.r2 * c.cos_ta_1da, c.r2 * c.sin_ta_1da, c.width * 0.5),
     (c.r2 * c.cos_ta_1da, c.r2 * c.sin_ta_1da, -c.width * 0.5)]
    (List.replicate 4 (c.v1, -c.u1, 0.0))
    [0, 1, 2, 1, 3, 2] := by
  refine ⟨?_, ?_, ?_, ?_, ?_, ?_, ?_, ?_, ?_⟩ <;> intro s
  · rfl
  · rfl
  · rfl
  · rw [append_eq_foldl_snoc]; rfl
  · rw [append_eq_foldl_snoc]; rfl
  · rw [append_eq_foldl_snoc]; rfl
  · simp only [outward1, posOf_INDEX, posOf_normalLoop, posOf_NORMAL, posOf_VERTEX, VERTEX_vt]
    rfl
  · simp only [outward1, normOf_INDEX, normOf_normalLoop, normOf_NORMAL, normOf_VERTEX, VERTEX_nm,
      NORMAL_nm]
  · rfl

theorem outward2_emits (c : Locals F) :
    Emits (outward2 c)
    [(c.r2 * c.cos_ta_1da, c.r2 * c.sin_ta_1da, c.width * 0.5),
     (c.r2 * c.cos_ta_1da, c.r2 * c.sin_ta_1da, -c.width * 0.5),
     (c.r2 * c.cos_ta_2da, c.r2 * c.sin_ta_2da, c.width * 0.5),
     (c.r2 * c.cos_ta_2da, c.r2 * c.sin_ta_2da, -c.width * 0.5)]
    (List.replicate 4 (c.cos_ta, c.sin_ta, 0.0))
    [0, 1, 2, 1, 3, 2] := by
  refine ⟨?_, ?_, ?_, ?_, ?_, ?_, ?_, ?_, ?_⟩ <;> intro s
  · rfl
  · rfl
  · rfl
  · rw [append_eq_foldl_snoc]; rfl
  · rw [append_eq_foldl_snoc]; rfl
  · rw [append_eq_foldl_snoc]; rfl
  · simp only [outward2, posOf_INDEX, posOf_normalLoop, posOf_NORMAL, posOf_VERTEX, VERTEX_vt]
    rfl
  · simp only [outward2, normOf_INDEX, normOf_normalLoop, normOf_NORMAL, normOf_VERTEX, VERTEX_nm,
      NORMAL_nm]
  · rfl

theorem outward3_emits (c : Locals F) :
    Emits (outward3 c)
    [(c.r2 * c.cos_ta_2da, c.r2 * c.sin_ta_2da, c.width * 0.5),
     (c.r2 * c.cos_ta_2da, c.r2 * c.sin_ta_2da, -c.width * 0.5),
     (c.r1 * c.cos_ta_3da, c.r1 * c.sin_ta_3da, c.width * 0.5),
     (c.r1 * c.cos_ta_3da, c.r1 * c.sin_ta_3da, -c.width * 0.5)]
    (List.replicate 4 (c.v2, -c.u2, 0.0))
    [0, 1, 2, 1, 3, 2] := by
  refine ⟨?_, ?_, ?_, ?_, ?_, ?_, ?_, ?_, ?_⟩ <;> intro s
  · rfl
  · rfl
  · rfl
  · rw [append_eq_foldl_snoc]; rfl
  · rw [append_eq_foldl_snoc]; rfl
  · rw [append_eq_foldl_snoc]; rfl
  · simp only [outward3, posOf_INDEX, posOf_normalLoop, posOf_NORMAL, posOf_VERTEX, VERTEX_vt]
    rfl
  · simp only [outward3, normOf_INDEX, normOf_normalLoop, normOf_NORMAL, normOf_VERTEX, VERTEX_nm,
      NORMAL_nm]
  · rfl

theorem outward4_emits (c : Locals F) :
    Emits (outward4 c)
    [(c.r1 * c.cos_ta_3da, c.r1 * c.sin_ta_3da, c.width * 0.5),
     (c.r1 * c.cos_ta_3da, c.r1 * c.sin_ta_3da, -c.width * 0.5),
     (c.r1 * c.cos_ta_4da, c.r1 * c.sin_ta_4da, c.width * 0.5),
     (c.r1 * c.cos_ta_4da, c.r1 * c.sin_ta_4da, -c.width * 0.5)]
    (List.replicate 4 (c.cos_ta, c.sin_ta, 0.0))
    [0, 1, 2, 1, 3, 2] := by
  refine ⟨?_, ?_, ?_, ?_, ?_, ?_, ?_, ?_, ?_⟩ <;> intro s
  · rfl
  · rfl
  · rfl
  · rw [append_eq_foldl_snoc]; rfl
  · rw [append_eq_foldl_snoc]; rfl
  · rw [append_eq_foldl_snoc]; rfl
  · simp only [outward4, posOf_INDEX, posOf_normalLoop, posOf_NORMAL, posOf_VERTEX, VERTEX_vt]
    rfl
  · simp only [outward4, normOf_INDEX, normOf_normalLoop, normOf_NORMAL, normOf_VERTEX, VERTEX_nm,
      NORMAL_nm]
  · rfl

theorem insideCylinder_emits (c : Locals F) :
    Emits (insideCylinder c)
    [(c.r0 * c.cos_ta, c.r0 * c.sin_ta, -c.width * 0.5),
     (c.r0 * c.cos_ta, c.r0 * c.sin_ta, c.width * 0.5),
     (c.r0 * c.cos_ta_4da, c.r0 * c.sin_ta_4da, -c.width * 0.5),
     (c.r0 * c.cos_ta_4da, c.r0 * c.sin_ta_4da, c.width * 0.5)]
    ([(-c.cos_ta, -c.sin_ta, 0.0), (-c.cos_ta, -c.sin_ta, 0.0),
     (-c.cos_ta_4da, -c.sin_ta_4da, 0.0), (-c.cos_ta_4da, -c.sin_ta_4da, 0.0)])
    [0, 1, 2, 1, 3, 2] := by
  refine ⟨?_, ?_, ?_, ?_, ?_, ?_, ?_, ?_, ?_⟩ <;> intro s
  · rfl
  · rfl
  · rfl
  · rw [append_eq_foldl_snoc]; rfl
  · rw [append_eq_foldl_snoc]; rfl
  · rw [append_eq_foldl_snoc]; rfl
  · simp only [insideCylinder, posOf_INDEX, posOf_normalLoop, posOf_NORMAL, posOf_VERTEX, VERTEX_vt]
    rfl
  · simp only [insideCylinder, normOf_INDEX, normOf_normalLoop, normOf_NORMAL, normOf_VERTEX, VERTEX_nm,
      NORMAL_nm]
    rfl
  · rfl

theorem emitTooth_emits (c : Locals F) :
    Emits (emitTooth c) (toothPos c) (toothNorm c) toothIdx :=
  ((((((((frontFace_emits c).comp (frontTeeth_emits c)).comp (backFace_emits c)).comp
    (backTeeth_emits c)).comp (outward1_emits c)).comp (outward2_emits c)).comp
    (outward3_emits c)).comp (outward4_emits c)).comp (insideCylinder_emits c)

end GroupLemmas

/-! ## The state of the tooth loop after `k` iterations -/

theorem writeBlock_getElem? {α : Type} (m : Nat → α) (b : Nat) (vs : List α) (j : Nat)
    (h : j < vs.length) : vs[j]? = some (writeBlock m b vs (b + j)) := by
  rw [writeBlock_at m b vs j h, List.getElem?_eq_getElem h]
  rfl

theorem range_append_block (a b : Nat) :
    List.range a ++ List.range' a b = List.range (a + b) := by
  rw [List.range_eq_range', List.range_eq_range']
  have h := List.range'_append_1 0 a b
  rw [Nat.zero_add] at h
  rw [h, Nat.add_comm]

section LoopLemmas

variable {F : Type} [Add F] [Sub F] [Mul F] [Div F] [Neg F] [OfScientific F]
  [IntCast F] [GLMath F]

theorem gearLoop_succ (r0 r1 r2 da width : F) (teeth : Int) (k : Nat) :
    gearLoop r0 r1 r2 da width teeth (k + 1)
      = emitTooth (toothLocals r0 r1 r2 da width teeth (k : Int))
          (gearLoop r0 r1 r2 da width teeth k) := by
  simp only [gearLoop, List.range_succ, List.foldl_append, List.foldl_cons, List.foldl_nil]

theorem gearLoop_vt (r0 r1 r2 da width : F) (teeth : Int) (k : Nat) :
    (gearLoop r0 r1 r2 da width teeth k).vt = 40 * k := by
  induction k with
  | zero => rfl
  | succ k ih => rw [gearLoop_succ, (emitTooth_emits _).vt, ih]; simp [toothPos]; omega

theorem gearLoop_nm (r0 r1 r2 da width : F) (teeth : Int) (k : Nat) :
    (gearLoop r0 r1 r2 da width teeth k).nm = 40 * k := by
  induction k with
  | zero => rfl
  | succ k ih => rw [gearLoop_succ, (emitTooth_emits _).nm, ih]; simp [toothNorm]; omega

theorem gearLoop_ix (r0 r1 r2 da width : F) (teeth : Int) (k : Nat) :
    (gearLoop r0 r1 r2 da width teeth k).ix = 66 * k := by
  induction k with
  | zero => rfl
  | succ k ih => rw [gearLoop_succ, (emitTooth_emits _).ix, ih]; simp [toothIdx]; omega

theorem gearLoop_vtLog_succ (r0 r1 r2 da width : F) (teeth : Int) (k : Nat) :
    (gearLoop r0 r1 r2 da width teeth (k + 1)).vtLog
      = (gearLoop r0 r1 r2 da width teeth k).vtLog ++ List.range' (40 * k) 40 := by
  rw [gearLoop_succ, (emitTooth_emits _).vtLog, gearLoop_vt]; rfl

theorem gearLoop_nmLog_succ (r0 r1 r2 da width : F) (teeth : Int) (k : Nat) :
    (gearLoop r0 r1 r2 da width teeth (k + 1)).nmLog
      = (gearLoop r0 r1 r2 da width teeth k).nmLog ++ List.range' (40 * k) 40 := by
  rw [gearLoop_succ, (emitTooth_emits _).nmLog, gearLoop_nm]; rfl

theorem gearLoop_ixLog_succ (r0 r1 r2 da width : F) (teeth : Int) (k : Nat) :
    (gearLoop r0 r1 r2 da width teeth (k + 1)).ixLog
      = (gearLoop r0 r1 r2 da width teeth k).ixLog ++ List.range' (66 * k) 66 := by
  rw [gearLoop_succ, (emitTooth_emits _).ixLog, gearLoop_ix]; rfl

theorem gearLoop_vtLog (r0 r1 r2 da width : F) (teeth : Int) (k : Nat) :
    (gearLoop r0 r1 r2 da width teeth k).vtLog = List.range (40 * k) := by
  induction k with
  | zero => rfl
  | succ k ih =>
    rw [gearLoop_vtLog_succ, ih, range_append_block, Nat.mul_succ]

theorem gearLoop_nmLog (r0 r1 r2 da width : F) (teeth : Int) (k : Nat) :
    (gearLoop r0 r1 r2 da width teeth k).nmLog = List.range (40 * k) := by
  induction k with
  | zero => rfl
  | succ k ih =>
    rw [gearLoop_nmLog_succ, ih, range_append_block, Nat.mul_succ]

theorem gearLoop_ixLog (r0 r1 r2 da width : F) (teeth : Int) (k : Nat) :
    (gearLoop r0 r1 r2 da width teeth k).ixLog = List.range (66 * k) := by
  induction k with
  | zero => rfl
  | succ k ih =>
    rw [gearLoop_ixLog_succ, ih, range_append_block, Nat.mul_succ]

/-- Slots of teeth already emitted are not touched by later iterations. -/
theorem gearLoop_pos (r0 r1 r2 da width : F) (teeth : Int) (k i m : Nat) (hi : i < k)
    (hm : m < 40) :
    (toothPos (toothLocals r0 r1 r2 da width teeth (i : Int)))[m]?
      = some (posOf (gearLoop r0 r1 r2 da width teeth k) (40 * i + m)) := by
  induction k with
  | zero => omega
  | succ k ih =>
    rw [gearLoop_succ, (emitTooth_emits _).pos, gearLoop_vt]
    rcases Nat.lt_succ_iff_lt_or_eq.mp hi with h | h
    · rw [writeBlock_of_lt _ _ _ _ (by omega)]
      exact ih h
    · subst h
      exact writeBlock_getElem? _ _ _ _ hm

theorem gearLoop_pos_zero (r0 r1 r2 da width : F) (teeth : Int) (k j : Nat) (hj : 40 * k ≤ j) :
    posOf (gearLoop r0 r1 r2 da width teeth k) j = (0.0, 0.0, 0.0) := by
  induction k with
  | zero => rfl
  | succ k ih =>
    rw [gearLoop_succ, (emitTooth_emits _).pos, gearLoop_vt,
      writeBlock_of_ge _ _ _ _ (by simp [toothPos]; omega)]
    exact ih (by omega)

theorem gearLoop_norm (r0 r1 r2 da width : F) (teeth : Int) (k i m : Nat) (hi : i < k)
    (hm : m < 40) :
    (toothNorm (toothLocals r0 r1 r2 da width teeth (i : Int)))[m]?
      = some (normOf (gearLoop r0 r1 r2 da width teeth k) (40 * i + m)) := by
  induction k with
  | zero => omega
  | succ k ih =>
    rw [gearLoop_succ, (emitTooth_emits _).norm, gearLoop_nm]
    rcases Nat.lt_succ_iff_lt_or_eq.mp hi with h | h
    · rw [writeBlock_of_lt _ _ _ _ (by omega)]
      exact ih h
    · subst h
      exact writeBlock_getElem? _ _ _ _ hm

theorem gearLoop_norm_zero (r0 r1 r2 da width : F) (teeth : Int) (k j : Nat) (hj : 40 * k ≤ j) :
    normOf (gearLoop r0 r1 r2 da width teeth k) j = (0.0, 0.0, 0.0) := by
  induction k with
  | zero => rfl
  | succ k ih =>
    rw [gearLoop_succ, (emitTooth_emits _).norm, gearLoop_nm,
      writeBlock_of_ge _ _ _ _ (by simp [toothNorm]; omega)]
    exact ih (by omega)

theorem gearLoop_indices (r0 r1 r2 da width : F) (teeth : Int) (k i m : Nat) (hi : i < k)
    (hm : m < 66) :
    (toothIdx.map (fun o => toGLushort (40 * i + o)))[m]?
      = some ((gearLoop r0 r1 r2 da width teeth k).indices (66 * i + m)) := by
  induction k with
  | zero => omega
  | succ k ih =>
    rw [gearLoop_succ, (emitTooth_emits _).idx, gearLoop_vt, gearLoop_ix]
    rcases Nat.lt_succ_iff_lt_or_eq.mp hi with h | h
    · rw [writeBlock_of_lt _ _ _ _ (by omega)]
      exact ih h
    · subst h
      exact writeBlock_getElem? _ _ _ _ (by simpa [toothIdx] using hm)

theorem gearLoop_indices_zero (r0 r1 r2 da width : F) (teeth : Int) (k j : Nat)
    (hj : 66 * k ≤ j) :
    (gearLoop r0 r1 r2 da width teeth k).indices j = 0 := by
  induction k with
  | zero => rfl
  | succ k ih =>
    rw [gearLoop_succ, (emitTooth_emits _).idx, gearLoop_vt, gearLoop_ix,
      writeBlock_of_ge _ _ _ _ (by simp [toothIdx]; omega)]
    exact ih (by omega)

end LoopLemmas

/-! ## Facts about the tables -/

theorem toothIdx_getD_lt_40 : ∀ m < 66, toothIdx.getD m 0 < 40 := by decide

theorem toothIdx_triangles :
    ∀ q < 22, toothIdx.getD (3 * q) 0 ≠ toothIdx.getD (3 * q + 1) 0
      ∧ toothIdx.getD (3 * q) 0 ≠ toothIdx.getD (3 * q + 2) 0
      ∧ toothIdx.getD (3 * q + 1) 0 ≠ toothIdx.getD (3 * q + 2) 0 := by decide

theorem mirrorSlot_lt : ∀ m < 40, mirrorSlot.getD m 0 < 40 := by decide

theorem toGLushort_ne (b x y : Nat) (hx : x < 40) (hy : y < 40) (h : x ≠ y) :
    toGLushort (b + x) ≠ toGLushort (b + y) := by
  unfold toGLushort
  omega

theorem foldl_lockstep {F : Type} (l : List (GearState F → GearState F))
    (hl : ∀ f ∈ l, ∀ s : GearState F, s.vt = s.nm → (f s).vt = (f s).nm)
    (s : GearState F) (h : s.vt = s.nm) :
    (l.foldl (fun s f => f s) s).vt = (l.foldl (fun s f => f s) s).nm := by
  induction l generalizing s with
  | nil => exact h
  | cons f l ih =>
    rw [List.foldl_cons]
    exact ih (fun g hg => hl g (List.mem_cons_of_mem _ hg)) _
      (hl f (List.mem_cons_self _ _) s h)

section GroupFacts

variable {F : Type} [Mul F] [Neg F] [OfScientific F]

theorem faceGroups_logs (c : Locals F) (s : GearState F) :
    (faceGroups c).map (fun f => (f s).vtLog.length)
        = groupSizes.map (fun k => s.vtLog.length + k)
    ∧ (faceGroups c).map (fun f => (f s).nmLog.length)
        = groupSizes.map (fun k => s.nmLog.length + k) := by
  refine ⟨?_, ?_⟩ <;>
  simp only [faceGroups, groupSizes, List.map, (frontFace_emits c).vtLog,
    (frontTeeth_emits c).vtLog, (backFace_emits c).vtLog, (backTeeth_emits c).vtLog,
    (outward1_emits c).vtLog, (outward2_emits c).vtLog, (outward3_emits c).vtLog,
    (outward4_emits c).vtLog, (insideCylinder_emits c).vtLog, (frontFace_emits c).nmLog,
    (frontTeeth_emits c).nmLog, (backFace_emits c).nmLog, (backTeeth_emits c).nmLog,
    (outward1_emits c).nmLog, (outward2_emits c).nmLog, (outward3_emits c).nmLog,
    (outward4_emits c).nmLog, (insideCylinder_emits c).nmLog, List.length_append,
    List.length_range', List.length_cons, List.length_nil, List.length_replicate]

theorem faceGroups_lockstep (c : Locals F) :
    ∀ f ∈ faceGroups c, ∀ s : GearState F, s.vt = s.nm → (f s).vt = (f s).nm := by
  intro f hf s h
  simp only [faceGroups, List.mem_cons, List.mem_singleton, List.not_mem_nil, or_false] at hf
  rcases hf with rfl | rfl | rfl | rfl | rfl | rfl | rfl | rfl | rfl
  · rw [(frontFace_emits c).vt, (frontFace_emits c).nm, h]; rfl
  · rw [(frontTeeth_emits c).vt, (frontTeeth_emits c).nm, h]; rfl
  · rw [(backFace_emits c).vt, (backFace_emits c).nm, h]; rfl
  · rw [(backTeeth_emits c).vt, (backTeeth_emits c).nm, h]; rfl
  · rw [(outward1_emits c).vt, (outward1_emits c).nm, h]; rfl
  · rw [(outward2_emits c).vt, (outward2_emits c).nm, h]; rfl
  · rw [(outward3_emits c).vt, (outward3_emits c).nm, h]; rfl
  · rw [(outward4_emits c).vt, (outward4_emits c).nm, h]; rfl
  · rw [(insideCylinder_emits c).vt, (insideCylinder_emits c).nm, h]; rfl

theorem toothPos_mirror (c : Locals F) (d : F × F × F) (m : Nat) (hm : m < 40) :
    (toothPos c).getD (mirrorSlot.getD m 0) d
      = (((toothPos c).getD m d).1, ((toothPos c).getD m d).2.1, -c.width * 0.5) := by
  interval_cases m <;> rfl

end GroupFacts

/-! ## The mesh `gear` returns -/

section MeshLemmas

variable {F : Type} [Add F] [Sub F] [Mul F] [Div F] [Neg F] [OfScientific F]
  [IntCast F] [GLMath F]

theorem gearAfter_eq (inner_radius outer_radius width : F) (teeth : Int) (tooth_depth : F)
    (k : Nat) :
    gearAfter inner_radius outer_radius width teeth tooth_depth k
      = gearLoop inner_radius (gearR1 outer_radius tooth_depth)
          (gearR2 outer_radius tooth_depth) (gearDa teeth) width teeth k := rfl

theorem gearAfter_succ (inner_radius outer_radius width : F) (teeth : Int) (tooth_depth : F)
    (k : Nat) :
    gearAfter inner_radius outer_radius width teeth tooth_depth (k + 1)
      = emitTooth (gearLocals inner_radius outer_radius width teeth tooth_depth (k : Int))
          (gearAfter inner_radius outer_radius width teeth tooth_depth k) := by
  rw [gearAfter_eq, gearAfter_eq, gearLoop_succ]
  rfl

theorem gearFinal_eq (inner_radius outer_radius width : F) (n : Nat) (tooth_depth : F) :
    gearFinal inner_radius outer_radius width n tooth_depth
      = gearLoop inner_radius (gearR1 outer_radius tooth_depth)
          (gearR2 outer_radius tooth_depth) (gearDa (n : Int)) width n n := by
  rw [gearFinal, Int.toNat_ofNat, gearAfter_eq]

theorem gear_indices (inner_radius outer_radius width : F) (teeth : Int) (tooth_depth : F)
    (color : F × F × F × F) :
    (gear inner_radius outer_radius width teeth tooth_depth color).indices
      = (gearFinal inner_radius outer_radius width teeth tooth_depth).indices := rfl

theorem gear_vertices (inner_radius outer_radius width : F) (teeth : Int) (tooth_depth : F)
    (color : F × F × F × F) :
    (gear inner_radius outer_radius width teeth tooth_depth color).vertices
      = (gearFinal inner_radius outer_radius width teeth tooth_depth).vertices := rfl

theorem gearLoop_index_entry (r0 r1 r2 da width : F) (teeth : Int) (k i m : Nat) (hi : i < k)
    (hm : m < 66) :
    (gearLoop r0 r1 r2 da width teeth k).indices (66 * i + m)
      = toGLushort (40 * i + toothIdx.getD m 0) := by
  have h := gearLoop_indices r0 r1 r2 da width teeth k i m hi hm
  have hl : m < toothIdx.length := hm
  rw [List.getElem?_map, List.getElem?_eq_getElem hl] at h
  rw [List.getD_eq_getElem _ _ hl]
  exact (Option.some.inj h).symm

theorem gear_pos_slot (a b w : F) (n : Nat) (d : F) (col : F × F × F × F) (i m : Nat)
    (hi : i < n) (hm : m < 40) :
    ((gear a b w n d col).vertices (40 * i + m)).pos
      = (toothPos (gearLocals a b w n d (i : Int))).getD m (0.0, 0.0, 0.0) := by
  have h := gearLoop_pos a (gearR1 b d) (gearR2 b d) (gearDa (n : Int)) w n n i m hi hm
  have hl : m < (toothPos (gearLocals a b w n d (i : Int))).length := hm
  rw [gear_vertices, gearFinal_eq, List.getD_eq_getElem _ _ hl]
  rw [show toothLocals a (gearR1 b d) (gearR2 b d) (gearDa (n : Int)) w n (i : Int)
    = gearLocals a b w n d (i : Int) from rfl, List.getElem?_eq_getElem hl] at h
  exact (Option.some.inj h).symm

theorem gear_norm_slot (a b w : F) (n : Nat) (d : F) (col : F × F × F × F) (i m : Nat)
    (hi : i < n) (hm : m < 40) :
    ((gear a b w n d col).vertices (40 * i + m)).norm
      = (toothNorm (gearLocals a b w n d (i : Int))).getD m (0.0, 0.0, 0.0) := by
  have h := gearLoop_norm a (gearR1 b d) (gearR2 b d) (gearDa (n : Int)) w n n i m hi hm
  have hl : m < (toothNorm (gearLocals a b w n d (i : Int))).length := hm
  rw [gear_vertices, gearFinal_eq, List.getD_eq_getElem _ _ hl]
  rw [show toothLocals a (gearR1 b d) (gearR2 b d) (gearDa (n : Int)) w n (i : Int)
    = gearLocals a b w n d (i : Int) from rfl, List.getElem?_eq_getElem hl] at h
  exact (Option.some.inj h).symm

end MeshLemmas

/-! ## Exact arithmetic -/

theorem real_cos (x : ℝ) : GLMath.cos x = Real.cos x := rfl

theorem real_sin (x : ℝ) : GLMath.sin x = Real.sin x := rfl

theorem real_sqrt (x : ℝ) : GLMath.sqrt x = Real.sqrt x := rfl

theorem real_pi : (GLMath.M_PI : ℝ) = Real.pi := rfl

theorem real_half (w : ℝ) : w * 0.5 = w / 2 := by norm_num; ring

theorem real_neg_half (w : ℝ) : -w * 0.5 = -(w / 2) := by norm_num; ring

/-- The locals of tooth `i`, in exact arithmetic. -/
theorem gearLocals_real (a b w : ℝ) (n : Nat) (d : ℝ) (i : Nat) :
    gearLocals a b w n d i =
      { r0 := a, r1 := b - d / 2, r2 := b + d / 2, width := w,
        cos_ta := Real.cos (realTa n i),
        cos_ta_1da := Real.cos (realTa n i + realDa n),
        cos_ta_2da := Real.cos (realTa n i + 2 * realDa n),
        cos_ta_3da := Real.cos (realTa n i + 3 * realDa n),
        cos_ta_4da := Real.cos (realTa n i + 4 * realDa n),
        sin_ta := Real.sin (realTa n i),
        sin_ta_1da := Real.sin (realTa n i + realDa n),
        sin_ta_2da := Real.sin (realTa n i + 2 * realDa n),
        sin_ta_3da := Real.sin (realTa n i + 3 * realDa n),
        sin_ta_4da := Real.sin (realTa n i + 4 * realDa n),
        u1 := ((b + d / 2) * Real.cos (realTa n i + realDa n)
                - (b - d / 2) * Real.cos (realTa n i))
              / Real.sqrt
                (((b + d / 2) * Real.cos (realTa n i + realDa n)
                    - (b - d / 2) * Real.cos (realTa n i))
                  * ((b + d / 2) * Real.cos (realTa n i + realDa n)
                    - (b - d / 2) * Real.cos (realTa n i))
                + ((b + d / 2) * Real.sin (realTa n i + realDa n)
                    - (b - d / 2) * Real.sin (realTa n i))
                  * ((b + d / 2) * Real.sin (realTa n i + realDa n)
                    - (b - d / 2) * Real.sin (realTa n i))),
        v1 := ((b + d / 2) * Real.sin (realTa n i + realDa n)
                - (b - d / 2) * Real.sin (realTa n i))
              / Real.sqrt
                (((b + d / 2) * Real.cos (realTa n i + realDa n)
                    - (b - d / 2) * Real.cos (realTa n i))
                  * ((b + d / 2) * Real.cos (realTa n i + realDa n)
                    - (b - d / 2) * Real.cos (realTa n i))
                + ((b + d / 2) * Real.sin (realTa n i + realDa n)
                    - (b - d / 2) * Real.sin (realTa n i))
                  * ((b + d / 2) * Real.sin (realTa n i + realDa n)
                    - (b - d / 2) * Real.sin (realTa n i))),
        u2 := (b - d / 2) * Real.cos (realTa n i + 3 * realDa n)
                - (b + d / 2) * Real.cos (realTa n i + 2 * realDa n),
        v2 := (b - d / 2) * Real.sin (realTa n i + 3 * realDa n)
                - (b + d / 2) * Real.sin (realTa n i + 2 * realDa n) } := by
  have h2 : (2.0 : ℝ) = 2 := by norm_num
  have h4 : (4.0 : ℝ) = 4 := by norm_num
  simp only [gearLocals, toothLocals, gearR1, gearR2, gearDa, real_cos, real_sin, real_sqrt,
    real_pi, realTa, realDa, h2, h4, Int.cast_natCast, Int.cast_ofNat]

theorem gear_first_vertex (a b w : ℝ) (n : Nat) (d : ℝ) (col : ℝ × ℝ × ℝ × ℝ) (hn : 1 ≤ n) :
    ((gear a b w n d col).vertices 0).pos = (a, 0, w / 2) := by
  rw [gear_pos_slot a b w n d col 0 0 hn (by decide), gearLocals_real]
  show (a * Real.cos (realTa n 0), a * Real.sin (realTa n 0), w * 0.5) = _
  rw [real_half]
  simp [realTa]

/-! ## The claims -/

section LayoutClaims

variable {F : Type} [Add F] [Sub F] [Mul F] [Div F] [Neg F] [OfScientific F]
  [IntCast F] [GLMath F]

/-- C1: for every tooth count `n` (in particular every `n ≥ 1`) and all radii,
width and tooth depth, `gear` declares `nvertices = 40 n`; tooth iteration `i`
performs exactly 40 position writes, to the slots `40 i, ..., 40 i + 39`; the
position writes of the whole run are the slots `0, ..., 40 n - 1`, so their
number is the declared vertex count. -/
theorem gear_vertex_count (inner_radius outer_radius width : F) (n : Nat) (tooth_depth : F)
    (color : F × F × F × F) :
    (gear inner_radius outer_radius width n tooth_depth color).nvertices = 40 * n
    ∧ (∀ i, i < n →
        (gearAfter inner_radius outer_radius width n tooth_depth (i + 1)).vtLog
          = (gearAfter inner_radius outer_radius width n tooth_depth i).vtLog
              ++ List.range' (40 * i) 40)
    ∧ (gearFinal inner_radius outer_radius width n tooth_depth).vtLog = List.range (40 * n)
    ∧ (((gearFinal inner_radius outer_radius width n tooth_depth).vtLog.length : Nat) : Int)
        = (gear inner_radius outer_radius width n tooth_depth color).nvertices := by
  have hfin : (gearFinal inner_radius outer_radius width n tooth_depth).vtLog
      = List.range (40 * n) := by
    rw [gearFinal_eq, gearLoop_vtLog]
  refine ⟨?_, ?_, hfin, ?_⟩
  · show (n : Int) * 40 = 40 * n
    omega
  · intro i _
    rw [gearAfter_eq, gearAfter_eq, gearLoop_vtLog_succ]
  · rw [hfin, List.length_range]
    show ((40 * n : Nat) : Int) = (n : Int) * 40
    omega

/-- C1 at `gear(1.0, 4.0, 1.0, 20, 0.7)`: 800 vertices declared, and tooth 19
writes the slots 760 to 799. -/
theorem gear_vertex_count_witness :
    (gear (1.0 : ℝ) 4.0 1.0 (20 : Nat) 0.7 (0.8, 0.1, 0.0, 1.0)).nvertices = 40 * (20 : Nat)
    ∧ (gearAfter (1.0 : ℝ) 4.0 1.0 (20 : Nat) 0.7 (19 + 1)).vtLog
        = (gearAfter (1.0 : ℝ) 4.0 1.0 (20 : Nat) 0.7 19).vtLog ++ List.range' (40 * 19) 40 :=
  ⟨(gear_vertex_count (1.0 : ℝ) 4.0 1.0 20 0.7 (0.8, 0.1, 0.0, 1.0)).1,
   (gear_vertex_count (1.0 : ℝ) 4.0 1.0 20 0.7 (0.8, 0.1, 0.0, 1.0)).2.1 19 (by decide)⟩

/-- C2 as stated fails: in `gear(1.0, 4.0, 1.0, 1, 0.7)` the one tooth iteration
stores 66 index entries (22 triangles), not 198 entries (66 triangles), while
the index list has the declared length 198. -/
theorem gear_one_tooth_index_entries :
    (gearFinal (1.0 : ℝ) 4.0 1.0 (1 : Nat) 0.7).ixLog.length = 66
    ∧ (gear (1.0 : ℝ) 4.0 1.0 (1 : Nat) 0.7 (0.8, 0.1, 0.0, 1.0)).nindices = 198
    ∧ (gearFinal (1.0 : ℝ) 4.0 1.0 (1 : Nat) 0.7).ixLog.length ≠ 1 * 66 * 3 := by
  have h : (gearFinal (1.0 : ℝ) 4.0 1.0 (1 : Nat) 0.7).ixLog = List.range (66 * 1) := by
    rw [gearFinal_eq, gearLoop_ixLog]
  refine ⟨?_, ?_, ?_⟩
  · rw [h]; rfl
  · show ((1 : Nat) : Int) * 66 * 3 = 198
    decide
  · rw [h]; decide

/-- C2, amended: for every tooth count `n`, each tooth iteration `i` appends
exactly 66 index entries (22 triangles), at the positions `66 i, ..., 66 i + 65`
of the index list; the entries written by the whole run are the positions
`0, ..., 66 n - 1`, that is `22 n` triangles, and the declared length
`nindices = teeth * 66 * 3` is three times the number of entries written. -/
theorem gear_index_entries_written (inner_radius outer_radius width : F) (n : Nat)
    (tooth_depth : F) (color : F × F × F × F) :
    (∀ i, i < n →
        (gearAfter inner_radius outer_radius width n tooth_depth (i + 1)).ixLog
          = (gearAfter inner_radius outer_radius width n tooth_depth i).ixLog
              ++ List.range' (66 * i) 66)
    ∧ (gearFinal inner_radius outer_radius width n tooth_depth).ixLog = List.range (66 * n)
    ∧ (gearFinal inner_radius outer_radius width n tooth_depth).ixLog.length = 3 * (22 * n)
    ∧ (gear inner_radius outer_radius width n tooth_depth color).nindices = n * 66 * 3
    ∧ (gear inner_radius outer_radius width n tooth_depth color).nindices
        = 3 * (((gearFinal inner_radius outer_radius width n tooth_depth).ixLog.length : Nat)
            : Int) := by
  have hfin : (gearFinal inner_radius outer_radius width n tooth_depth).ixLog
      = List.range (66 * n) := by
    rw [gearFinal_eq, gearLoop_ixLog]
  refine ⟨?_, hfin, ?_, rfl, ?_⟩
  · intro i _
    rw [gearAfter_eq, gearAfter_eq, gearLoop_ixLog_succ]
  · rw [hfin, List.length_range]; omega
  · rw [hfin, List.length_range]
    show (n : Int) * 66 * 3 = 3 * ((66 * n : Nat) : Int)
    omega

/-- C2, amended, at `gear(1.0, 4.0, 1.0, 20, 0.7)`: 1320 index entries, that is
440 triangles, in an index list of declared length 3960. -/
theorem gear_index_entries_written_witness :
    (gearFinal (1.0 : ℝ) 4.0 1.0 (20 : Nat) 0.7).ixLog.length = 3 * (22 * 20)
    ∧ (gear (1.0 : ℝ) 4.0 1.0 (20 : Nat) 0.7 (0.8, 0.1, 0.0, 1.0)).nindices
        = (20 : Nat) * 66 * 3
    ∧ (gearAfter (1.0 : ℝ) 4.0 1.0 (20 : Nat) 0.7 (0 + 1)).ixLog
        = (gearAfter (1.0 : ℝ) 4.0 1.0 (20 : Nat) 0.7 0).ixLog ++ List.range' (66 * 0) 66 :=
  ⟨(gear_index_entries_written (1.0 : ℝ) 4.0 1.0 20 0.7 (0.8, 0.1, 0.0, 1.0)).2.2.1,
   (gear_index_entries_written (1.0 : ℝ) 4.0 1.0 20 0.7 (0.8, 0.1, 0.0, 1.0)).2.2.2.1,
   (gear_index_entries_written (1.0 : ℝ) 4.0 1.0 20 0.7 (0.8, 0.1, 0.0, 1.0)).1 0 (by decide)⟩

/-- C3: for every tooth count `n` (in particular `n ≥ 1`, the boundary `n = 1`
included) and all other parameters, every one of the `teeth * 66 * 3` entries
of the index list returned by `gear` is a 16-bit value `v` with
`0 ≤ v < 40 n`, the declared vertex count. -/
theorem gear_indices_in_range (inner_radius outer_radius width : F) (n : Nat)
    (tooth_depth : F) (color : F × F × F × F) :
    (gear inner_radius outer_radius width n tooth_depth color).nindices = n * 66 * 3
    ∧ (gear inner_radius outer_radius width n tooth_depth color).nvertices = 40 * n
    ∧ ∀ t, t < n * 66 * 3 →
        0 ≤ (gear inner_radius outer_radius width n tooth_depth color).indices t
        ∧ (gear inner_radius outer_radius width n tooth_depth color).indices t < 65536
        ∧ (gear inner_radius outer_radius width n tooth_depth color).indices t < 40 * n := by
  refine ⟨rfl, ?_, ?_⟩
  · show (n : Int) * 40 = 40 * n
    omega
  intro t _
  refine ⟨Nat.zero_le _, ?_⟩
  rw [gear_indices, gearFinal_eq]
  by_cases h : t < 66 * n
  · have hi : t / 66 < n := by omega
    have hm : t % 66 < 66 := Nat.mod_lt _ (by decide)
    have e := gearLoop_index_entry inner_radius (gearR1 outer_radius tooth_depth)
      (gearR2 outer_radius tooth_depth) (gearDa (n : Int)) width n n (t / 66) (t % 66) hi hm
    rw [Nat.div_add_mod] at e
    have hb := toothIdx_getD_lt_40 (t % 66) hm
    have h1 := Nat.mod_le (40 * (t / 66) + toothIdx.getD (t % 66) 0) 65536
    have h2 := Nat.mod_lt (40 * (t / 66) + toothIdx.getD (t % 66) 0)
      (show 65536 > 0 by decide)
    rw [e, toGLushort]
    constructor
    · exact h2
    · omega
  · rw [gearLoop_indices_zero _ _ _ _ _ _ _ _ (by omega)]
    omega

/-- C3 at the boundary `tooth_count = 1`: the last entry of the index list of
`gear(1.0, 4.0, 1.0, 1, 0.7)`, entry 197, is below 40. -/
theorem gear_indices_in_range_witness :
    197 < (1 : Nat) * 66 * 3
    ∧ (gear (1.0 : ℝ) 4.0 1.0 (1 : Nat) 0.7 (0.8, 0.1, 0.0, 1.0)).indices 197 < 40 * 1 :=
  ⟨by decide,
   ((gear_indices_in_range (1.0 : ℝ) 4.0 1.0 1 0.7 (0.8, 0.1, 0.0, 1.0)).2.2 197
      (by decide)).2.2⟩

/-- C4 as stated fails: in the index list of `gear(1.0, 4.0, 1.0, 1, 0.7)`, of
length 198, the triple `t = 22` (entries 66, 67, 68) repeats an index: its
first two entries are equal. -/
theorem gear_one_tooth_zero_triangle :
    3 * 22 + 2 < (1 : Nat) * 66 * 3
    ∧ (gear (1.0 : ℝ) 4.0 1.0 (1 : Nat) 0.7 (0.8, 0.1, 0.0, 1.0)).indices (3 * 22)
        = (gear (1.0 : ℝ) 4.0 1.0 (1 : Nat) 0.7 (0.8, 0.1, 0.0, 1.0)).indices (3 * 22 + 1) := by
  refine ⟨by decide, ?_⟩
  rw [gear_indices, gearFinal_eq, gearLoop_indices_zero _ _ _ _ _ _ _ _ (by decide),
    gearLoop_indices_zero _ _ _ _ _ _ _ _ (by decide)]

/-- C4, amended: for every tooth count `n`, every triangle the generator emits,
that is every triple `(indices[3t], indices[3t+1], indices[3t+2])` with
`t < 22 n`, has three pairwise distinct index values; every later triple of the
index list (`22 n ≤ t`) still holds the initial zeros `(0, 0, 0)`. -/
theorem gear_triangles_distinct (inner_radius outer_radius width : F) (n : Nat)
    (tooth_depth : F) (color : F × F × F × F) (t : Nat) :
    (t < 22 * n →
      (gear inner_radius outer_radius width n tooth_depth color).indices (3 * t)
          ≠ (gear inner_radius outer_radius width n tooth_depth color).indices (3 * t + 1)
      ∧ (gear inner_radius outer_radius width n tooth_depth color).indices (3 * t)
          ≠ (gear inner_radius outer_radius width n tooth_depth color).indices (3 * t + 2)
      ∧ (gear inner_radius outer_radius width n tooth_depth color).indices (3 * t + 1)
          ≠ (gear inner_radius outer_radius width n tooth_depth color).indices (3 * t + 2))
    ∧ (22 * n ≤ t →
      (gear inner_radius outer_radius width n tooth_depth color).indices (3 * t) = 0
      ∧ (gear inner_radius outer_radius width n tooth_depth color).indices (3 * t + 1) = 0
      ∧ (gear inner_radius outer_radius width n tooth_depth color).indices (3 * t + 2) = 0) := by
  rw [gear_indices, gearFinal_eq]
  constructor
  · intro ht
    have hi : t / 22 < n := by omega
    have hq : t % 22 < 22 := Nat.mod_lt _ (by decide)
    have e0 : 3 * t = 66 * (t / 22) + 3 * (t % 22) := by omega
    have e1 : 3 * t + 1 = 66 * (t / 22) + (3 * (t % 22) + 1) := by omega
    have e2 : 3 * t + 2 = 66 * (t / 22) + (3 * (t % 22) + 2) := by omega
    rw [e1, e2, e0,
      gearLoop_index_entry _ _ _ _ _ _ _ _ _ hi (show 3 * (t % 22) < 66 by omega),
      gearLoop_index_entry _ _ _ _ _ _ _ _ _ hi (show 3 * (t % 22) + 1 < 66 by omega),
      gearLoop_index_entry _ _ _ _ _ _ _ _ _ hi (show 3 * (t % 22) + 2 < 66 by omega)]
    obtain ⟨d1, d2, d3⟩ := toothIdx_triangles (t % 22) hq
    exact ⟨toGLushort_ne _ _ _ (toothIdx_getD_lt_40 _ (by omega))
        (toothIdx_getD_lt_40 _ (by omega)) d1,
      toGLushort_ne _ _ _ (toothIdx_getD_lt_40 _ (by omega))
        (toothIdx_getD_lt_40 _ (by omega)) d2,
      toGLushort_ne _ _ _ (toothIdx_getD_lt_40 _ (by omega))
        (toothIdx_getD_lt_40 _ (by omega)) d3⟩
  · intro ht
    exact ⟨gearLoop_indices_zero _ _ _ _ _ _ _ _ (by omega),
      gearLoop_indices_zero _ _ _ _ _ _ _ _ (by omega),
      gearLoop_indices_zero _ _ _ _ _ _ _ _ (by omega)⟩

/-- C4, amended, at `gear(1.0, 4.0, 1.0, 20, 0.7)`: the last emitted triangle,
`t = 439`, has distinct first and second index. -/
theorem gear_triangles_distinct_witness :
    439 < 22 * 20
    ∧ (gear (1.0 : ℝ) 4.0 1.0 (20 : Nat) 0.7 (0.8, 0.1, 0.0, 1.0)).indices (3 * 439)
        ≠ (gear (1.0 : ℝ) 4.0 1.0 (20 : Nat) 0.7 (0.8, 0.1, 0.0, 1.0)).indices (3 * 439 + 1) :=
  ⟨by decide,
   ((gear_triangles_distinct (1.0 : ℝ) 4.0 1.0 20 0.7 (0.8, 0.1, 0.0, 1.0) 439).1
      (by decide)).1⟩

/-- C6: in every face group, run in any state, the number of `NORMAL` writes
equals the number of `VERTEX` writes, namely 6, 4, 6, 4, 4, 4, 4, 4, 4; in the
run of `gear` the cursors `vt` and `nm` are equal after every face group of
every tooth iteration (the nine groups of iteration `i` lead from the state
after `i` iterations to the state after `i + 1`); after `k` iterations both are
at `40 k`, at return both are at `40 n`; and every slot `k < 40 n` has had its
position written exactly once and its normal written exactly once. -/
theorem gear_cursors_lockstep (inner_radius outer_radius width : F) (n : Nat)
    (tooth_depth : F) :
    (∀ (c : Locals F) (s : GearState F),
        (faceGroups c).map (fun f => (f s).vtLog.length)
            = groupSizes.map (fun k => s.vtLog.length + k)
        ∧ (faceGroups c).map (fun f => (f s).nmLog.length)
            = groupSizes.map (fun k => s.nmLog.length + k))
    ∧ (∀ i j, i < n → j ≤ 9 →
        (((faceGroups (gearLocals inner_radius outer_radius width n tooth_depth (i : Int))).take
            j).foldl (fun s f => f s)
          (gearAfter inner_radius outer_radius width n tooth_depth i)).vt
        = (((faceGroups (gearLocals inner_radius outer_radius width n tooth_depth (i : Int))).take
            j).foldl (fun s f => f s)
          (gearAfter inner_radius outer_radius width n tooth_depth i)).nm)
    ∧ (∀ i, i < n →
        ((faceGroups (gearLocals inner_radius outer_radius width n tooth_depth (i : Int))).take
            9).foldl (fun s f => f s)
          (gearAfter inner_radius outer_radius width n tooth_depth i)
        = gearAfter inner_radius outer_radius width n tooth_depth (i + 1))
    ∧ (∀ k, k ≤ n →
        (gearAfter inner_radius outer_radius width n tooth_depth k).vt = 40 * k
        ∧ (gearAfter inner_radius outer_radius width n tooth_depth k).nm = 40 * k)
    ∧ (gearFinal inner_radius outer_radius width n tooth_depth).vt = 40 * n
    ∧ (gearFinal inner_radius outer_radius width n tooth_depth).nm = 40 * n
    ∧ (∀ k, k < 40 * n →
        (gearFinal inner_radius outer_radius width n tooth_depth).vtLog.count k = 1
        ∧ (gearFinal inner_radius outer_radius width n tooth_depth).nmLog.count k = 1) := by
  refine ⟨faceGroups_logs, ?_, ?_, ?_, ?_, ?_, ?_⟩
  · intro i j _ _
    apply foldl_lockstep
    · intro f hf
      exact faceGroups_lockstep _ f (List.mem_of_mem_take hf)
    · rw [gearAfter_eq, gearLoop_vt, gearLoop_nm]
  · intro i _
    rw [gearAfter_succ]
    rfl
  · intro k _
    rw [gearAfter_eq, gearLoop_vt, gearLoop_nm]
    exact ⟨rfl, rfl⟩
  · rw [gearFinal_eq, gearLoop_vt]
  · rw [gearFinal_eq, gearLoop_nm]
  · intro k hk
    rw [gearFinal_eq, gearLoop_vtLog, gearLoop_nmLog]
    exact ⟨List.count_eq_one_of_mem (List.nodup_range _) (List.mem_range.2 hk),
      List.count_eq_one_of_mem (List.nodup_range _) (List.mem_range.2 hk)⟩

/-- C6 at `gear(1.0, 4.0, 1.0, 20, 0.7)`: the last slot, 799, has its position
and its normal written exactly once. -/
theorem gear_cursors_lockstep_witness :
    799 < 40 * 20
    ∧ (gearFinal (1.0 : ℝ) 4.0 1.0 (20 : Nat) 0.7).vtLog.count 799 = 1
    ∧ (gearFinal (1.0 : ℝ) 4.0 1.0 (20 : Nat) 0.7).nmLog.count 799 = 1 :=
  ⟨by decide,
   (gear_cursors_lockstep (1.0 : ℝ) 4.0 1.0 20 0.7).2.2.2.2.2.2 799 (by decide)⟩

/-- C10: for `tooth_count = 0` and any radii, width and tooth depth, `gear`
returns a mesh with `nvertices = 0` and `nindices = 0`; the tooth loop runs
zero times, so the state at return is the state at loop entry: no position, no
normal and no index has been written, and both buffers hold their initial
zeros. -/
theorem gear_zero_teeth (inner_radius outer_radius width tooth_depth : F)
    (color : F × F × F × F) :
    (gear inner_radius outer_radius width 0 tooth_depth color).nvertices = 0
    ∧ (gear inner_radius outer_radius width 0 tooth_depth color).nindices = 0
    ∧ gearFinal inner_radius outer_radius width 0 tooth_depth = gearInit
    ∧ (gearFinal inner_radius outer_radius width 0 tooth_depth).vtLog = []
    ∧ (gearFinal inner_radius outer_radius width 0 tooth_depth).nmLog = []
    ∧ (gearFinal inner_radius outer_radius width 0 tooth_depth).ixLog = []
    ∧ (∀ k, (gear inner_radius outer_radius width 0 tooth_depth color).vertices k
          = { pos := (0.0, 0.0, 0.0), norm := (0.0, 0.0, 0.0) })
    ∧ (∀ k, (gear inner_radius outer_radius width 0 tooth_depth color).indices k = 0) :=
  ⟨rfl, rfl, rfl, rfl, rfl, rfl, fun _ => rfl, fun _ => rfl⟩

end LayoutClaims

/-! ### Claims about the values stored, in exact arithmetic -/

/-- C5: mirror symmetry.  For every parameter set and every slot `k` of the
mesh returned by `gear` (`k < 40 n`, so `n ≥ 1`) whose position is
`(x, y, +w/2)`, there is a slot `k'` of the same mesh whose position is
`(x, y, -w/2)`, with the same `x` and `y`. -/
theorem gear_mirror_symmetry (inner_radius outer_radius width : ℝ) (n : Nat)
    (tooth_depth : ℝ) (color : ℝ × ℝ × ℝ × ℝ) (k : Nat) (x y : ℝ) (hk : k < 40 * n)
    (h : ((gear inner_radius outer_radius width n tooth_depth color).vertices k).pos
      = (x, y, width / 2)) :
    ∃ k', k' < 40 * n
      ∧ ((gear inner_radius outer_radius width n tooth_depth color).vertices k').pos
          = (x, y, -(width / 2)) := by
  have hi : k / 40 < n := by omega
  have hm : k % 40 < 40 := Nat.mod_lt _ (by decide)
  have e := gear_pos_slot inner_radius outer_radius width n tooth_depth color _ _ hi hm
  rw [Nat.div_add_mod, h] at e
  have hm2 := mirrorSlot_lt _ hm
  refine ⟨40 * (k / 40) + mirrorSlot.getD (k % 40) 0, by omega, ?_⟩
  rw [gear_pos_slot inner_radius outer_radius width n tooth_depth color _ _ hi hm2,
    toothPos_mirror _ _ _ hm, ← e]
  show (x, y, -width * 0.5) = (x, y, -(width / 2))
  rw [real_neg_half]

/-- C5 at the green gear, `gear(0.5, 2.0, 2.0, 10, 0.7)`: slot 0 is at
`(0.5, 0, +1)`, and some slot is at `(0.5, 0, -1)`. -/
theorem gear_mirror_symmetry_witness :
    ((gear (0.5 : ℝ) 2.0 2.0 (10 : Nat) 0.7 (0.0, 0.8, 0.2, 1.0)).vertices 0).pos
        = (0.5, 0, 2.0 / 2)
    ∧ ∃ k', k' < 40 * 10
      ∧ ((gear (0.5 : ℝ) 2.0 2.0 (10 : Nat) 0.7 (0.0, 0.8, 0.2, 1.0)).vertices k').pos
          = (0.5, 0, -(2.0 / 2)) :=
  ⟨gear_first_vertex _ _ _ _ _ _ (by decide),
   gear_mirror_symmetry 0.5 2.0 2.0 10 0.7 (0.0, 0.8, 0.2, 1.0) 0 0.5 0 (by decide)
    (gear_first_vertex _ _ _ _ _ _ (by decide))⟩

/-- C8: for every tooth `i < n` of every generated gear, the 6 front-face and
4 front-tooth-flank vertices (slots `40 i + 0 .. 9`) are all at `z = +width/2`
and all carry the normal `(0, 0, 1)`; the 6 back-face and 4 back-tooth-flank
vertices (slots `40 i + 10 .. 19`) are all at `z = -width/2` and all carry
`(0, 0, -1)`; and in each of the four outward tooth quads (slots
`40 i + 20 + 4 q + m`, `q < 4`, `m < 4`) the 4 vertices carry the same normal. -/
theorem gear_flat_normals (inner_radius outer_radius width : ℝ) (n : Nat)
    (tooth_depth : ℝ) (color : ℝ × ℝ × ℝ × ℝ) (i : Nat) (hi : i < n) :
    (∀ m, m < 10 →
      ((gear inner_radius outer_radius width n tooth_depth color).vertices (40 * i + m)).norm
          = (0, 0, 1)
      ∧ ((gear inner_radius outer_radius width n tooth_depth color).vertices (40 * i + m)).pos.2.2
          = width / 2)
    ∧ (∀ m, 10 ≤ m → m < 20 →
      ((gear inner_radius outer_radius width n tooth_depth color).vertices (40 * i + m)).norm
          = (0, 0, -1)
      ∧ ((gear inner_radius outer_radius width n tooth_depth color).vertices (40 * i + m)).pos.2.2
          = -(width / 2))
    ∧ (∀ q m, q < 4 → m < 4 →
      ((gear inner_radius outer_radius width n tooth_depth color).vertices
          (40 * i + 20 + 4 * q + m)).norm
        = ((gear inner_radius outer_radius width n tooth_depth color).vertices
          (40 * i + 20 + 4 * q)).norm) := by
  have h0 : (0.0 : ℝ) = 0 := by norm_num
  have h1 : (1.0 : ℝ) = 1 := by norm_num
  refine ⟨?_, ?_, ?_⟩
  · intro m hm
    rw [gear_norm_slot _ _ _ _ _ _ i m hi (by omega), gear_pos_slot _ _ _ _ _ _ i m hi (by omega),
      ← real_half width, ← h0, ← h1]
    interval_cases m <;> exact ⟨rfl, rfl⟩
  · intro m hm1 hm2
    rw [gear_norm_slot _ _ _ _ _ _ i m hi (by omega), gear_pos_slot _ _ _ _ _ _ i m hi (by omega),
      ← real_neg_half width, ← h0, ← h1]
    interval_cases m <;> exact ⟨rfl, rfl⟩
  · intro q m hq hm
    rw [show 40 * i + 20 + 4 * q + m = 40 * i + (20 + 4 * q + m) by omega,
      show 40 * i + 20 + 4 * q = 40 * i + (20 + 4 * q) by omega,
      gear_norm_slot _ _ _ _ _ _ i _ hi (by omega), gear_norm_slot _ _ _ _ _ _ i _ hi (by omega)]
    interval_cases q <;> interval_cases m <;> rfl

/-- C8 at the red gear `gear(1.0, 4.0, 1.0, 20, 0.7)`: slot 3 of tooth 0
carries the normal `(0, 0, 1)` at `z = +width/2`, slot 13 carries `(0, 0, -1)`. -/
theorem gear_flat_normals_witness :
    ((gear (1.0 : ℝ) 4.0 1.0 (20 : Nat) 0.7 (0.8, 0.1, 0.0, 1.0)).vertices (40 * 0 + 3)).norm
        = (0, 0, 1)
    ∧ ((gear (1.0 : ℝ) 4.0 1.0 (20 : Nat) 0.7 (0.8, 0.1, 0.0, 1.0)).vertices
        (40 * 0 + 3)).pos.2.2 = 1.0 / 2
    ∧ ((gear (1.0 : ℝ) 4.0 1.0 (20 : Nat) 0.7 (0.8, 0.1, 0.0, 1.0)).vertices (40 * 0 + 13)).norm
        = (0, 0, -1) :=
  ⟨((gear_flat_normals 1.0 4.0 1.0 20 0.7 (0.8, 0.1, 0.0, 1.0) 0 (by decide)).1 3
      (by decide)).1,
   ((gear_flat_normals 1.0 4.0 1.0 20 0.7 (0.8, 0.1, 0.0, 1.0) 0 (by decide)).1 3
      (by decide)).2,
   ((gear_flat_normals 1.0 4.0 1.0 20 0.7 (0.8, 0.1, 0.0, 1.0) 0 (by decide)).2.1 13
      (by decide) (by decide)).1⟩

/-- C9: for every tooth count `n ≥ 1` and every tooth `i < n`, the six
front-face vertices at the slots `40 i + 0 .. 5` are, in order, `r0@ta`,
`r1@ta`, `r0@(ta + 2 da)`, `r1@(ta + 2 da)`, `r0@(ta + 4 da)`, `r1@(ta + 4 da)`,
where `r@a = (r * cos a, r * sin a, width / 2)`, `r0 = inner_radius`,
`r1 = outer_radius - tooth_depth / 2`, `ta = i * 2 * pi / n` and
`da = 2 * pi / n / 4`; in particular slot 0 of the mesh is
`(inner_radius, 0, width / 2)`. -/
theorem gear_front_face_vertices (inner_radius outer_radius width : ℝ) (n : Nat)
    (tooth_depth : ℝ) (color : ℝ × ℝ × ℝ × ℝ) (hn : 1 ≤ n) :
    (∀ i, i < n →
      ((gear inner_radius outer_radius width n tooth_depth color).vertices (40 * i + 0)).pos
        = (inner_radius * Real.cos (realTa n i), inner_radius * Real.sin (realTa n i), width / 2)
      ∧ ((gear inner_radius outer_radius width n tooth_depth color).vertices (40 * i + 1)).pos
        = ((outer_radius - tooth_depth / 2) * Real.cos (realTa n i),
           (outer_radius - tooth_depth / 2) * Real.sin (realTa n i), width / 2)
      ∧ ((gear inner_radius outer_radius width n tooth_depth color).vertices (40 * i + 2)).pos
        = (inner_radius * Real.cos (realTa n i + 2 * realDa n),
           inner_radius * Real.sin (realTa n i + 2 * realDa n), width / 2)
      ∧ ((gear inner_radius outer_radius width n tooth_depth color).vertices (40 * i + 3)).pos
        = ((outer_radius - tooth_depth / 2) * Real.cos (realTa n i + 2 * realDa n),
           (outer_radius - tooth_depth / 2) * Real.sin (realTa n i + 2 * realDa n), width / 2)
      ∧ ((gear inner_radius outer_radius width n tooth_depth color).vertices (40 * i + 4)).pos
        = (inner_radius * Real.cos (realTa n i + 4 * realDa n),
           inner_radius * Real.sin (realTa n i + 4 * realDa n), width / 2)
      ∧ ((gear inner_radius outer_radius width n tooth_depth color).vertices (40 * i + 5)).pos
        = ((outer_radius - tooth_depth / 2) * Real.cos (realTa n i + 4 * realDa n),
           (outer_radius - tooth_depth / 2) * Real.sin (realTa n i + 4 * realDa n), width / 2))
    ∧ ((gear inner_radius outer_radius width n tooth_depth color).vertices 0).pos
        = (inner_radius, 0, width / 2) := by
  refine ⟨?_, gear_first_vertex _ _ _ _ _ _ hn⟩
  intro i hi
  rw [gear_pos_slot _ _ _ _ _ _ i 0 hi (by decide), gear_pos_slot _ _ _ _ _ _ i 1 hi (by decide),
    gear_pos_slot _ _ _ _ _ _ i 2 hi (by decide), gear_pos_slot _ _ _ _ _ _ i 3 hi (by decide),
    gear_pos_slot _ _ _ _ _ _ i 4 hi (by decide), gear_pos_slot _ _ _ _ _ _ i 5 hi (by decide),
    gearLocals_real, ← real_half width]
  exact ⟨rfl, rfl, rfl, rfl, rfl, rfl⟩

/-- C9 at `gear(1.0, 4.0, 1.0, 20, 0.7)`: slot 0 of the mesh is
`(1.0, 0.0, 0.5)`. -/
theorem gear_front_face_vertices_witness :
    1 ≤ 20
    ∧ ((gear (1.0 : ℝ) 4.0 1.0 (20 : Nat) 0.7 (0.8, 0.1, 0.0, 1.0)).vertices 0).pos
        = (1.0, 0.0, 0.5) := by
  refine ⟨by decide, ?_⟩
  rw [(gear_front_face_vertices 1.0 4.0 1.0 20 0.7 (0.8, 0.1, 0.0, 1.0) (by decide)).2]
  norm_num

/-! ### Claims about the index list -/

section IndexClaims

variable {F : Type} [Add F] [Sub F] [Mul F] [Div F] [Neg F] [OfScientific F]
  [IntCast F] [GLMath F]

theorem gear_index_entry (a b w : F) (n : Nat) (d : F) (col : F × F × F × F) (i m : Nat)
    (hi : i < n) (hm : m < 66) :
    (gear a b w n d col).indices (66 * i + m) = toGLushort (40 * i + toothIdx.getD m 0) := by
  rw [gear_indices, gearFinal_eq]
  exact gearLoop_index_entry _ _ _ _ _ _ n i m hi hm

theorem gear_index_exact (a b w : F) (n : Nat) (d : F) (col : F × F × F × F) (i m : Nat)
    (hn : 40 * n ≤ 65536) (hi : i < n) (hm : m < 66) :
    (gear a b w n d col).indices (66 * i + m) = 40 * i + toothIdx.getD m 0 := by
  have hb := toothIdx_getD_lt_40 m hm
  rw [gear_index_entry _ _ _ _ _ _ i m hi hm, toGLushort, Nat.mod_eq_of_lt (by omega)]

theorem gear_triangle_crossZ (a b w : F) (n : Nat) (d : F) (col : F × F × F × F) (i q : Nat)
    (hn : 40 * n ≤ 65536) (hi : i < n) (hq : q < 22) :
    triangleCrossZ (gear a b w n d col) (22 * i + q)
      = crossZ
          ((toothPos (gearLocals a b w n d (i : Int))).getD (toothIdx.getD (3 * q) 0)
            (0.0, 0.0, 0.0))
          ((toothPos (gearLocals a b w n d (i : Int))).getD (toothIdx.getD (3 * q + 1) 0)
            (0.0, 0.0, 0.0))
          ((toothPos (gearLocals a b w n d (i : Int))).getD (toothIdx.getD (3 * q + 2) 0)
            (0.0, 0.0, 0.0)) := by
  unfold triangleCrossZ
  rw [show 3 * (22 * i + q) = 66 * i + 3 * q by omega,
    show 66 * i + 3 * q + 1 = 66 * i + (3 * q + 1) by omega,
    show 66 * i + 3 * q + 2 = 66 * i + (3 * q + 2) by omega,
    gear_index_exact _ _ _ _ _ _ i _ hn hi (show 3 * q < 66 by omega),
    gear_index_exact _ _ _ _ _ _ i _ hn hi (show 3 * q + 1 < 66 by omega),
    gear_index_exact _ _ _ _ _ _ i _ hn hi (show 3 * q + 2 < 66 by omega),
    gear_pos_slot _ _ _ _ _ _ i _ hi (toothIdx_getD_lt_40 _ (show 3 * q < 66 by omega)),
    gear_pos_slot _ _ _ _ _ _ i _ hi (toothIdx_getD_lt_40 _ (show 3 * q + 1 < 66 by omega)),
    gear_pos_slot _ _ _ _ _ _ i _ hi (toothIdx_getD_lt_40 _ (show 3 * q + 2 < 66 by omega))]

theorem gear_triangle_normal (a b w : F) (n : Nat) (d : F) (col : F × F × F × F) (i m : Nat)
    (hn : 40 * n ≤ 65536) (hi : i < n) (hm : m < 66) :
    ((gear a b w n d col).vertices ((gear a b w n d col).indices (66 * i + m))).norm
      = (toothNorm (gearLocals a b w n d (i : Int))).getD (toothIdx.getD m 0)
          (0.0, 0.0, 0.0) := by
  rw [gear_index_exact _ _ _ _ _ _ i m hn hi hm,
    gear_norm_slot _ _ _ _ _ _ i _ hi (toothIdx_getD_lt_40 m hm)]

/-- C12: quad triangulation.  For every tooth count `n` with `40 n ≤ 65536` and
every tooth `i < n`, the 66 index entries `gear` emits during iteration `i`
(positions `66 i, ..., 66 i + 65`) are `40 i +` the listed offsets, which is
the list of the eleven quads of a tooth, corners `(a, b, c, d)` in emission
order, each split into the triangles `(a, b, c), (b, d, c)`; every one of
these entries is one of the slots `40 i, ..., 40 i + 39`, the slots whose
positions the same iteration writes (no forward reference). -/
theorem gear_quad_triangulation (inner_radius outer_radius width : F) (n : Nat)
    (tooth_depth : F) (color : F × F × F × F) (i : Nat) (hn : 40 * n ≤ 65536) (hi : i < n) :
    (gearAfter inner_radius outer_radius width n tooth_depth (i + 1)).ixLog
        = (gearAfter inner_radius outer_radius width n tooth_depth i).ixLog
            ++ List.range' (66 * i) 66
    ∧ (List.range 66).map
          (fun m => (gear inner_radius outer_radius width n tooth_depth color).indices
            (66 * i + m))
        = [0, 1, 2, 1, 3, 2, 2, 3, 4, 3, 5, 4, 6, 7, 8, 7, 9, 8,
           10, 11, 12, 11, 13, 12, 12, 13, 14, 13, 15, 14, 16, 17, 18, 17, 19, 18,
           20, 21, 22, 21, 23, 22, 24, 25, 26, 25, 27, 26,
           28, 29, 30, 29, 31, 30, 32, 33, 34, 33, 35, 34,
           36, 37, 38, 37, 39, 38].map (fun o => 40 * i + o)
    ∧ [0, 1, 2, 1, 3, 2, 2, 3, 4, 3, 5, 4, 6, 7, 8, 7, 9, 8,
       10, 11, 12, 11, 13, 12, 12, 13, 14, 13, 15, 14, 16, 17, 18, 17, 19, 18,
       20, 21, 22, 21, 23, 22, 24, 25, 26, 25, 27, 26,
       28, 29, 30, 29, 31, 30, 32, 33, 34, 33, 35, 34,
       36, 37, 38, 37, 39, 38] = quadTriangles toothQuads
    ∧ (∀ m, m < 66 →
        (gear inner_radius outer_radius width n tooth_depth color).indices (66 * i + m)
          ∈ List.range' (40 * i) 40)
    ∧ (gearAfter inner_radius outer_radius width n tooth_depth (i + 1)).vtLog
        = (gearAfter inner_radius outer_radius width n tooth_depth i).vtLog
            ++ List.range' (40 * i) 40 := by
  have key : ∀ m, m < 66 →
      (gear inner_radius outer_radius width n tooth_depth color).indices (66 * i + m)
        = 40 * i + toothIdx.getD m 0 :=
    fun m hm => gear_index_exact _ _ _ _ _ _ i m hn hi hm
  refine ⟨?_, ?_, rfl, ?_, ?_⟩
  · rw [gearAfter_eq, gearAfter_eq, gearLoop_ixLog_succ]
  · have e : [0, 1, 2, 1, 3, 2, 2, 3, 4, 3, 5, 4, 6, 7, 8, 7, 9, 8,
           10, 11, 12, 11, 13, 12, 12, 13, 14, 13, 15, 14, 16, 17, 18, 17, 19, 18,
           20, 21, 22, 21, 23, 22, 24, 25, 26, 25, 27, 26,
           28, 29, 30, 29, 31, 30, 32, 33, 34, 33, 35, 34,
           36, 37, 38, 37, 39, 38].map (fun o => 40 * i + o)
        = (List.range 66).map (fun m => 40 * i + toothIdx.getD m 0) := rfl
    rw [e]
    apply List.map_congr_left
    intro m hm
    exact key m (List.mem_range.1 hm)
  · intro m hm
    have hb := toothIdx_getD_lt_40 m hm
    rw [key m hm, List.mem_range'_1]
    omega
  · rw [gearAfter_eq, gearAfter_eq, gearLoop_vtLog_succ]

/-- C12 at the red gear `gear(1.0, 4.0, 1.0, 20, 0.7)`, last tooth. -/
theorem gear_quad_triangulation_witness :
    (List.range 66).map
        (fun m => (gear (1.0 : ℝ) 4.0 1.0 (20 : Nat) 0.7 (0.8, 0.1, 0.0, 1.0)).indices
          (66 * 19 + m))
      = [0, 1, 2, 1, 3, 2, 2, 3, 4, 3, 5, 4, 6, 7, 8, 7, 9, 8,
         10, 11, 12, 11, 13, 12, 12, 13, 14, 13, 15, 14, 16, 17, 18, 17, 19, 18,
         20, 21, 22, 21, 23, 22, 24, 25, 26, 25, 27, 26,
         28, 29, 30, 29, 31, 30, 32, 33, 34, 33, 35, 34,
         36, 37, 38, 37, 39, 38].map (fun o => 40 * 19 + o) :=
  (gear_quad_triangulation (1.0 : ℝ) 4.0 1.0 20 0.7 (0.8, 0.1, 0.0, 1.0) 19 (by decide)
    (by decide)).2.1

/-- C15: for every tooth count `n ≥ 0`, `gear` writes index entries only at the
positions `0, ..., 66 n - 1` of the index buffer, tooth `i` at the positions
`66 i, ..., 66 i + 65`; the positions `66 n, ..., 198 n - 1` of the buffer of
length `nindices = teeth * 66 * 3` are never written and keep the initial
zero; and the element count `nindices / 3` that `draw_gear` passes to the draw
call is `66 n`, the number of index entries written. -/
theorem gear_index_frame (inner_radius outer_radius width : F) (n : Nat)
    (tooth_depth : F) (color : F × F × F × F) :
    (∀ i, i < n →
        (gearAfter inner_radius outer_radius width n tooth_depth (i + 1)).ixLog
          = (gearAfter inner_radius outer_radius width n tooth_depth i).ixLog
              ++ List.range' (66 * i) 66)
    ∧ (gearFinal inner_radius outer_radius width n tooth_depth).ixLog = List.range (66 * n)
    ∧ (∀ t, t ∈ (gearFinal inner_radius outer_radius width n tooth_depth).ixLog → t < 66 * n)
    ∧ (gear inner_radius outer_radius width n tooth_depth color).nindices = n * 66 * 3
    ∧ (∀ t, 66 * n ≤ t → t < n * 66 * 3 →
        t ∉ (gearFinal inner_radius outer_radius width n tooth_depth).ixLog
        ∧ (gear inner_radius outer_radius width n tooth_depth color).indices t = 0)
    ∧ drawCount (gear inner_radius outer_radius width n tooth_depth color) = 66 * n
    ∧ drawCount (gear inner_radius outer_radius width n tooth_depth color)
        = (((gearFinal inner_radius outer_radius width n tooth_depth).ixLog.length : Nat)
            : Int) := by
  have hfin : (gearFinal inner_radius outer_radius width n tooth_depth).ixLog
      = List.range (66 * n) := by
    rw [gearFinal_eq, gearLoop_ixLog]
  have hd : drawCount (gear inner_radius outer_radius width n tooth_depth color) = 66 * n := by
    show Int.tdiv ((n : Int) * 66 * 3) 3 = 66 * n
    rw [Int.mul_tdiv_cancel _ (by decide)]
    omega
  refine ⟨?_, hfin, ?_, rfl, ?_, hd, ?_⟩
  · intro i _
    rw [gearAfter_eq, gearAfter_eq, gearLoop_ixLog_succ]
  · intro t ht
    rw [hfin] at ht
    exact List.mem_range.1 ht
  · intro t h1 _
    constructor
    · rw [hfin, List.mem_range]
      omega
    · rw [gear_indices, gearFinal_eq]
      exact gearLoop_indices_zero _ _ _ _ _ _ _ _ h1
  · rw [hd, hfin, List.length_range]
    norm_cast

/-- C15 at the red gear `gear(1.0, 4.0, 1.0, 20, 0.7)`: the draw count is
1320, and entry 1320, the first one not written, is zero. -/
theorem gear_index_frame_witness :
    drawCount (gear (1.0 : ℝ) 4.0 1.0 (20 : Nat) 0.7 (0.8, 0.1, 0.0, 1.0)) = 66 * (20 : Nat)
    ∧ (gear (1.0 : ℝ) 4.0 1.0 (20 : Nat) 0.7 (0.8, 0.1, 0.0, 1.0)).indices 1320 = 0 :=
  ⟨(gear_index_frame (1.0 : ℝ) 4.0 1.0 20 0.7 (0.8, 0.1, 0.0, 1.0)).2.2.2.2.2.1,
   ((gear_index_frame (1.0 : ℝ) 4.0 1.0 20 0.7 (0.8, 0.1, 0.0, 1.0)).2.2.2.2.1 1320
      (by decide) (by decide)).2⟩

/-- C16: 16-bit truncation.  Every index `gear` stores is the slot number that
`VERTEX` returned, reduced modulo `2 ^ 16`; for every tooth count `n`, all
stored indices equal the slot numbers they were emitted for if and only if
`40 n ≤ 65536`, that is `n ≤ 1638`; and for `n = 1639` the reference of the
last tooth (tooth 1638, index entry 30 of the tooth) to slot 65536 is stored
as 0, a slot of tooth 0. -/
theorem gear_index_truncation (inner_radius outer_radius width : F) (n : Nat)
    (tooth_depth : F) (color : F × F × F × F) :
    (∀ i m, i < n → m < 66 →
        (gear inner_radius outer_radius width n tooth_depth color).indices (66 * i + m)
          = (40 * i + toothIdx.getD m 0) % 2 ^ 16)
    ∧ ((∀ i m, i < n → m < 66 →
          (gear inner_radius outer_radius width n tooth_depth color).indices (66 * i + m)
            = 40 * i + toothIdx.getD m 0)
        ↔ 40 * n ≤ 65536)
    ∧ (40 * n ≤ 65536 ↔ n ≤ 1638)
    ∧ 40 * 1638 + toothIdx.getD 30 0 = 65536
    ∧ (gear inner_radius outer_radius width (1639 : Nat) tooth_depth color).indices
        (66 * 1638 + 30) = 0 := by
  refine ⟨?_, ?_, by omega, by decide, ?_⟩
  · intro i m hi hm
    rw [gear_index_entry _ _ _ _ _ _ i m hi hm]
    rfl
  · constructor
    · intro h
      by_contra hc
      have h1 := h 1638 30 (by omega) (by decide)
      rw [gear_index_entry _ _ _ _ _ _ 1638 30 (by omega) (by decide)] at h1
      revert h1
      decide
    · intro h i m hi hm
      have hb := toothIdx_getD_lt_40 m hm
      rw [gear_index_entry _ _ _ _ _ _ i m hi hm, toGLushort, Nat.mod_eq_of_lt (by omega)]
  · rw [gear_index_entry _ _ _ _ _ _ 1638 30 (by decide) (by decide)]
    decide

/-- C16 at 20 teeth, where the last index entry is stored exactly, and at 1639
teeth. -/
theorem gear_index_truncation_witness :
    (gear (1.0 : ℝ) 4.0 1.0 (20 : Nat) 0.7 (0.8, 0.1, 0.0, 1.0)).indices (66 * 19 + 65)
        = 40 * 19 + toothIdx.getD 65 0
    ∧ (gear (1.0 : ℝ) 4.0 1.0 (1639 : Nat) 0.7 (0.8, 0.1, 0.0, 1.0)).indices
        (66 * 1638 + 30) = 0 :=
  ⟨(gear_index_truncation (1.0 : ℝ) 4.0 1.0 20 0.7 (0.8, 0.1, 0.0, 1.0)).2.1.2 (by decide) 19 65
      (by decide) (by decide),
   (gear_index_truncation (1.0 : ℝ) 4.0 1.0 20 0.7 (0.8, 0.1, 0.0, 1.0)).2.2.2.2⟩

end IndexClaims

/-! ### The normals of the bore quad and of the flank quads, for every carrier -/

section StoredNormals

variable {F : Type} [Add F] [Sub F] [Mul F] [Div F] [Neg F] [OfScientific F]
  [IntCast F] [GLMath F]

/-- The inner-bore quad of tooth `i < n`, for every carrier of `GLfloat`:
the slots `40 i + 36` and `40 i + 37`, at radius `r0` and at the angle whose
cosine and sine are `cos_ta` and `sin_ta`, store the normal
`(-cos_ta, -sin_ta, 0)`; the slots `40 i + 38` and `40 i + 39`, at the angle of
`cos_ta_4da` and `sin_ta_4da`, store `(-cos_ta_4da, -sin_ta_4da, 0)`; and
these locals are the cosine and sine of `ta` and of `ta + 4 * da`. -/
theorem gear_bore_quad_stored (inner_radius outer_radius width : F) (n : Nat)
    (tooth_depth : F) (color : F × F × F × F) (i : Nat) (hi : i < n) :
    ((gear inner_radius outer_radius width n tooth_depth color).vertices (40 * i + 36)).norm
        = (-(gearLocals inner_radius outer_radius width n tooth_depth (i : Int)).cos_ta,
           -(gearLocals inner_radius outer_radius width n tooth_depth (i : Int)).sin_ta, 0.0)
    ∧ ((gear inner_radius outer_radius width n tooth_depth color).vertices (40 * i + 37)).norm
        = (-(gearLocals inner_radius outer_radius width n tooth_depth (i : Int)).cos_ta,
           -(gearLocals inner_radius outer_radius width n tooth_depth (i : Int)).sin_ta, 0.0)
    ∧ ((gear inner_radius outer_radius width n tooth_depth color).vertices (40 * i + 38)).norm
        = (-(gearLocals inner_radius outer_radius width n tooth_depth (i : Int)).cos_ta_4da,
           -(gearLocals inner_radius outer_radius width n tooth_depth (i : Int)).sin_ta_4da, 0.0)
    ∧ ((gear inner_radius outer_radius width n tooth_depth color).vertices (40 * i + 39)).norm
        = (-(gearLocals inner_radius outer_radius width n tooth_depth (i : Int)).cos_ta_4da,
           -(gearLocals inner_radius outer_radius width n tooth_depth (i : Int)).sin_ta_4da, 0.0)
    ∧ ((gear inner_radius outer_radius width n tooth_depth color).vertices (40 * i + 36)).pos
        = (inner_radius * (gearLocals inner_radius outer_radius width n tooth_depth (i : Int)).cos_ta,
           inner_radius * (gearLocals inner_radius outer_radius width n tooth_depth (i : Int)).sin_ta,
           -width * 0.5)
    ∧ ((gear inner_radius outer_radius width n tooth_depth color).vertices (40 * i + 37)).pos
        = (inner_radius * (gearLocals inner_radius outer_radius width n tooth_depth (i : Int)).cos_ta,
           inner_radius * (gearLocals inner_radius outer_radius width n tooth_depth (i : Int)).sin_ta,
           width * 0.5)
    ∧ ((gear inner_radius outer_radius width n tooth_depth color).vertices (40 * i + 38)).pos
        = (inner_radius
             * (gearLocals inner_radius outer_radius width n tooth_depth (i : Int)).cos_ta_4da,
           inner_radius
             * (gearLocals inner_radius outer_radius width n tooth_depth (i : Int)).sin_ta_4da,
           -width * 0.5)
    ∧ ((gear inner_radius outer_radius width n tooth_depth color).vertices (40 * i + 39)).pos
        = (inner_radius
             * (gearLocals inner_radius outer_radius width n tooth_depth (i : Int)).cos_ta_4da,
           inner_radius
             * (gearLocals inner_radius outer_radius width n tooth_depth (i : Int)).sin_ta_4da,
           width * 0.5)
    ∧ (gearLocals inner_radius outer_radius width n tooth_depth (i : Int)).cos_ta
        = cos (((i : Int) : F) * 2.0 * M_PI / ((n : Int) : F))
    ∧ (gearLocals inner_radius outer_radius width n tooth_depth (i : Int)).sin_ta
        = sin (((i : Int) : F) * 2.0 * M_PI / ((n : Int) : F))
    ∧ (gearLocals inner_radius outer_radius width n tooth_depth (i : Int)).cos_ta_4da
        = cos (((i : Int) : F) * 2.0 * M_PI / ((n : Int) : F)
            + ((4 : Int) : F) * (2.0 * M_PI / ((n : Int) : F) / 4.0))
    ∧ (gearLocals inner_radius outer_radius width n tooth_depth (i : Int)).sin_ta_4da
        = sin (((i : Int) : F) * 2.0 * M_PI / ((n : Int) : F)
            + ((4 : Int) : F) * (2.0 * M_PI / ((n : Int) : F) / 4.0)) := by
  rw [gear_norm_slot _ _ _ _ _ _ i 36 hi (by decide),
    gear_norm_slot _ _ _ _ _ _ i 37 hi (by decide),
    gear_norm_slot _ _ _ _ _ _ i 38 hi (by decide),
    gear_norm_slot _ _ _ _ _ _ i 39 hi (by decide),
    gear_pos_slot _ _ _ _ _ _ i 36 hi (by decide),
    gear_pos_slot _ _ _ _ _ _ i 37 hi (by decide),
    gear_pos_slot _ _ _ _ _ _ i 38 hi (by decide),
    gear_pos_slot _ _ _ _ _ _ i 39 hi (by decide)]
  exact ⟨rfl, rfl, rfl, rfl, rfl, rfl, rfl, rfl, rfl, rfl, rfl, rfl⟩

/-- The two slanted flank quads of tooth `i < n`, for every carrier of
`GLfloat`: the four vertices of the first outward quad store `(v1, -u1, 0)`,
those of the third store `(v2, -u2, 0)`; `u1` and `v1` are the raw differences
divided by `len = sqrt (u1 * u1 + v1 * v1)`, with no test of `len`, and `u2`,
`v2` are the raw differences, not divided. -/
theorem gear_flank_normals_stored (inner_radius outer_radius width : F) (n : Nat)
    (tooth_depth : F) (color : F × F × F × F) (i : Nat) (hi : i < n) :
    (∀ m, m < 4 →
      ((gear inner_radius outer_radius width n tooth_depth color).vertices
          (40 * i + 20 + m)).norm
        = ((gearLocals inner_radius outer_radius width n tooth_depth (i : Int)).v1,
           -(gearLocals inner_radius outer_radius width n tooth_depth (i : Int)).u1, 0.0))
    ∧ (∀ m, m < 4 →
      ((gear inner_radius outer_radius width n tooth_depth color).vertices
          (40 * i + 28 + m)).norm
        = ((gearLocals inner_radius outer_radius width n tooth_depth (i : Int)).v2,
           -(gearLocals inner_radius outer_radius width n tooth_depth (i : Int)).u2, 0.0))
    ∧ (gearLocals inner_radius outer_radius width n tooth_depth (i : Int)).u1
        = ((gearLocals inner_radius outer_radius width n tooth_depth (i : Int)).r2
              * (gearLocals inner_radius outer_radius width n tooth_depth (i : Int)).cos_ta_1da
            - (gearLocals inner_radius outer_radius width n tooth_depth (i : Int)).r1
              * (gearLocals inner_radius outer_radius width n tooth_depth (i : Int)).cos_ta)
          / sqrt
            (((gearLocals inner_radius outer_radius width n tooth_depth (i : Int)).r2
                  * (gearLocals inner_radius outer_radius width n tooth_depth (i : Int)).cos_ta_1da
                - (gearLocals inner_radius outer_radius width n tooth_depth (i : Int)).r1
                  * (gearLocals inner_radius outer_radius width n tooth_depth (i : Int)).cos_ta)
              * ((gearLocals inner_radius outer_radius width n tooth_depth (i : Int)).r2
                  * (gearLocals inner_radius outer_radius width n tooth_depth (i : Int)).cos_ta_1da
                - (gearLocals inner_radius outer_radius width n tooth_depth (i : Int)).r1
                  * (gearLocals inner_radius outer_radius width n tooth_depth (i : Int)).cos_ta)
            + ((gearLocals inner_radius outer_radius width n tooth_depth (i : Int)).r2
                  * (gearLocals inner_radius outer_radius width n tooth_depth (i : Int)).sin_ta_1da
                - (gearLocals inner_radius outer_radius width n tooth_depth (i : Int)).r1
                  * (gearLocals inner_radius outer_radius width n tooth_depth (i : Int)).sin_ta)
              * ((gearLocals inner_radius outer_radius width n tooth_depth (i : Int)).r2
                  * (gearLocals inner_radius outer_radius width n tooth_depth (i : Int)).sin_ta_1da
                - (gearLocals inner_radius outer_radius width n tooth_depth (i : Int)).r1
                  * (gearLocals inner_radius outer_radius width n tooth_depth (i : Int)).sin_ta))
    ∧ (gearLocals inner_radius outer_radius width n tooth_depth (i : Int)).u2
        = (gearLocals inner_radius outer_radius width n tooth_depth (i : Int)).r1
            * (gearLocals inner_radius outer_radius width n tooth_depth (i : Int)).cos_ta_3da
          - (gearLocals inner_radius outer_radius width n tooth_depth (i : Int)).r2
            * (gearLocals inner_radius outer_radius width n tooth_depth (i : Int)).cos_ta_2da
    ∧ (gearLocals inner_radius outer_radius width n tooth_depth (i : Int)).v2
        = (gearLocals inner_radius outer_radius width n tooth_depth (i : Int)).r1
            * (gearLocals inner_radius outer_radius width n tooth_depth (i : Int)).sin_ta_3da
          - (gearLocals inner_radius outer_radius width n tooth_depth (i : Int)).r2
            * (gearLocals inner_radius outer_radius width n tooth_depth (i : Int)).sin_ta_2da := by
  refine ⟨?_, ?_, rfl, rfl, rfl⟩
  · intro m hm
    rw [show 40 * i + 20 + m = 40 * i + (20 + m) by omega,
      gear_norm_slot _ _ _ _ _ _ i _ hi (by omega)]
    interval_cases m <;> rfl
  · intro m hm
    rw [show 40 * i + 28 + m = 40 * i + (28 + m) by omega,
      gear_norm_slot _ _ _ _ _ _ i _ hi (by omega)]
    interval_cases m <;> rfl

end StoredNormals

/-! ### The winding of the z-facing faces, in exact arithmetic -/

theorem realDa_pos (n : Nat) (hn : 1 ≤ n) : 0 < realDa n := by
  have hn0 : (0 : ℝ) < n := by exact_mod_cast (by omega : 0 < n)
  unfold realDa
  have := Real.pi_pos
  positivity

theorem cos_mul_sin_sub (x y : ℝ) :
    Real.cos x * Real.sin y - Real.sin x * Real.cos y = Real.sin (y - x) := by
  rw [Real.sin_sub]
  ring

theorem realDa_le_quarter (n : Nat) (hn : 2 ≤ n) : realDa n ≤ Real.pi / 4 := by
  have hn1 : (2 : ℝ) ≤ n := by exact_mod_cast hn
  have hpi := Real.pi_pos
  unfold realDa
  have e : 2 * Real.pi / (n : ℝ) / 4 = Real.pi / 2 / n := by
    field_simp
    ring
  rw [e, div_le_iff₀ (by linarith)]
  nlinarith

theorem sin_facts (d : ℝ) (h0 : 0 < d) (h1 : d ≤ Real.pi / 4) :
    0 < Real.sin d ∧ 0 < Real.sin (2 * d) ∧ Real.sin (2 * d) < 2 * Real.sin d
      ∧ Real.sin (3 * d) < Real.sin (2 * d) + Real.sin d := by
  have hpi := Real.pi_pos
  have hs : 0 < Real.sin d := Real.sin_pos_of_pos_of_lt_pi h0 (by linarith)
  have hc : 0 < Real.cos d := Real.cos_pos_of_mem_Ioo ⟨by linarith, by linarith⟩
  have hsq := Real.sin_sq_add_cos_sq d
  have hc1 : Real.cos d < 1 := by nlinarith
  have h2 : Real.sin (2 * d) = 2 * Real.sin d * Real.cos d := Real.sin_two_mul d
  have h3 : Real.sin (3 * d) = 3 * Real.sin d - 4 * Real.sin d ^ 3 := Real.sin_three_mul d
  refine ⟨hs, ?_, ?_, ?_⟩
  · rw [h2]; positivity
  · rw [h2]; nlinarith
  · rw [h2, h3]
    have e : 2 * Real.sin d * Real.cos d + Real.sin d - (3 * Real.sin d - 4 * Real.sin d ^ 3)
        = 2 * Real.sin d * ((1 - Real.cos d) * (1 + 2 * Real.cos d)) := by
      have : Real.sin d ^ 2 = 1 - Real.cos d ^ 2 := by linarith
      have e3 : Real.sin d ^ 3 = Real.sin d * (1 - Real.cos d ^ 2) := by
        rw [← this]; ring
      rw [e3]; ring
    have hp : 0 < 2 * Real.sin d * ((1 - Real.cos d) * (1 + 2 * Real.cos d)) := by
      have : 0 < 1 - Real.cos d := by linarith
      positivity
    linarith

theorem crossZ_mk (x1 y1 z1 x2 y2 z2 x3 y3 z3 : ℝ) :
    crossZ (x1, y1, z1) (x2, y2, z2) (x3, y3, z3)
      = (x2 - x1) * (y3 - y1) - (y2 - y1) * (x3 - x1) := rfl


theorem locals_winding (c : Locals ℝ) (z : ℝ × ℝ × ℝ) (S1 S2 S3 : ℝ)
    (h01 : c.cos_ta * c.sin_ta_1da - c.sin_ta * c.cos_ta_1da = S1)
    (h12 : c.cos_ta_1da * c.sin_ta_2da - c.sin_ta_1da * c.cos_ta_2da = S1)
    (h23 : c.cos_ta_2da * c.sin_ta_3da - c.sin_ta_2da * c.cos_ta_3da = S1)
    (h02 : c.cos_ta * c.sin_ta_2da - c.sin_ta * c.cos_ta_2da = S2)
    (h13 : c.cos_ta_1da * c.sin_ta_3da - c.sin_ta_1da * c.cos_ta_3da = S2)
    (h24 : c.cos_ta_2da * c.sin_ta_4da - c.sin_ta_2da * c.cos_ta_4da = S2)
    (h03 : c.cos_ta * c.sin_ta_3da - c.sin_ta * c.cos_ta_3da = S3)
    (hS1 : 0 < S1) (hS2 : 0 < S2) (hS21 : S2 < 2 * S1) (hS3 : S3 < S2 + S1)
    (hr0 : 0 < c.r0) (hr01 : c.r0 < c.r1) (hr12 : c.r1 ≤ c.r2) (q : Nat) :
    (q < 10 →
      0 < crossZ ((toothPos c).getD (toothIdx.getD (3 * q) 0) z)
        ((toothPos c).getD (toothIdx.getD (3 * q + 1) 0) z)
        ((toothPos c).getD (toothIdx.getD (3 * q + 2) 0) z))
    ∧ (10 ≤ q → q < 12 →
      crossZ ((toothPos c).getD (toothIdx.getD (3 * q) 0) z)
        ((toothPos c).getD (toothIdx.getD (3 * q + 1) 0) z)
        ((toothPos c).getD (toothIdx.getD (3 * q + 2) 0) z) < 0) := by
  have hr1 : 0 < c.r1 := lt_trans hr0 hr01
  have hr2 : 0 < c.r2 := lt_of_lt_of_le hr1 hr12
  have a0 : 0 < (c.r1 - c.r0) * c.r0 * S2 := mul_pos (mul_pos (sub_pos.2 hr01) hr0) hS2
  have a1 : 0 < c.r1 * (c.r1 - c.r0) * S2 := mul_pos (mul_pos hr1 (sub_pos.2 hr01)) hS2
  have b0 : 0 < c.r1 * (c.r2 * (S2 + S1) - c.r1 * S3) := by
    apply mul_pos hr1
    have e1 : c.r1 * (S2 + S1) ≤ c.r2 * (S2 + S1) :=
      mul_le_mul_of_nonneg_right hr12 (by linarith)
    have e2 : c.r1 * S3 < c.r1 * (S2 + S1) := mul_lt_mul_of_pos_left hS3 hr1
    linarith
  have b1 : 0 < c.r2 * ((c.r1 + c.r2) * S1 - c.r1 * S2) := by
    apply mul_pos hr2
    have e1 : c.r1 * S2 < c.r1 * (2 * S1) := mul_lt_mul_of_pos_left hS21 hr1
    have e2 : c.r1 * S1 ≤ c.r2 * S1 := mul_le_mul_of_nonneg_right hr12 hS1.le
    linarith
  rw [← h02] at a0 a1
  have a2 : 0 < (c.r1 - c.r0) * c.r0 * S2 := mul_pos (mul_pos (sub_pos.2 hr01) hr0) hS2
  have a3 : 0 < c.r1 * (c.r1 - c.r0) * S2 := mul_pos (mul_pos hr1 (sub_pos.2 hr01)) hS2
  rw [← h24] at a2 a3
  have b0x : 0 < c.r1 * (c.r2 * ((c.cos_ta_1da * c.sin_ta_3da - c.sin_ta_1da * c.cos_ta_3da)
      + (c.cos_ta * c.sin_ta_1da - c.sin_ta * c.cos_ta_1da))
      - c.r1 * (c.cos_ta * c.sin_ta_3da - c.sin_ta * c.cos_ta_3da)) := by
    rw [h13, h01, h03]; exact b0
  have b1x : 0 < c.r2 * (c.r1 * (c.cos_ta_2da * c.sin_ta_3da - c.sin_ta_2da * c.cos_ta_3da)
      + c.r2 * (c.cos_ta_1da * c.sin_ta_2da - c.sin_ta_1da * c.cos_ta_2da)
      - c.r1 * (c.cos_ta_1da * c.sin_ta_3da - c.sin_ta_1da * c.cos_ta_3da)) := by
    rw [h23, h12, h13]
    have : c.r1 * S1 + c.r2 * S1 - c.r1 * S2 = (c.r1 + c.r2) * S1 - c.r1 * S2 := by ring
    rw [this]; exact b1
  have b0y : 0 < c.r1 * (c.r2 * ((c.cos_ta * c.sin_ta_2da - c.sin_ta * c.cos_ta_2da)
      + (c.cos_ta_2da * c.sin_ta_3da - c.sin_ta_2da * c.cos_ta_3da))
      - c.r1 * (c.cos_ta * c.sin_ta_3da - c.sin_ta * c.cos_ta_3da)) := by
    rw [h02, h23, h03]; exact b0
  have b1y : 0 < c.r2 * (c.r1 * (c.cos_ta * c.sin_ta_1da - c.sin_ta * c.cos_ta_1da)
      + c.r2 * (c.cos_ta_1da * c.sin_ta_2da - c.sin_ta_1da * c.cos_ta_2da)
      - c.r1 * (c.cos_ta * c.sin_ta_2da - c.sin_ta * c.cos_ta_2da)) := by
    rw [h01, h12, h02]
    have : c.r1 * S1 + c.r2 * S1 - c.r1 * S2 = (c.r1 + c.r2) * S1 - c.r1 * S2 := by ring
    rw [this]; exact b1
  constructor
  · intro hq
    interval_cases q
    all_goals (show 0 < crossZ (_, _, _) (_, _, _) (_, _, _); rw [crossZ_mk])
    · linarith
    · linarith
    · linarith
    · linarith
    · linarith
    · linarith
    · linarith
    · linarith
    · linarith
    · linarith
  · intro hq1 hq2
    interval_cases q
    all_goals (show crossZ (_, _, _) (_, _, _) (_, _, _) < 0; rw [crossZ_mk])
    · linarith
    · linarith

/-- The winding of the z-facing faces as the code emits them: the triangles
of the front face, of the front tooth flank and of the back face (`q < 10`)
have a geometric normal with positive z component, those of the back tooth
flank (`q = 10, 11`) one with negative z component. -/
theorem gear_z_face_winding (inner_radius outer_radius width : ℝ) (n : Nat)
    (tooth_depth : ℝ) (color : ℝ × ℝ × ℝ × ℝ) (i q : Nat) (hn2 : 2 ≤ n)
    (hn : 40 * n ≤ 65536) (h0 : 0 < inner_radius)
    (h1 : inner_radius < outer_radius - tooth_depth / 2)
    (h2 : outer_radius - tooth_depth / 2 ≤ outer_radius + tooth_depth / 2) (hi : i < n) :
    (q < 10 →
      0 < triangleCrossZ (gear inner_radius outer_radius width n tooth_depth color)
        (22 * i + q))
    ∧ (10 ≤ q → q < 12 →
      triangleCrossZ (gear inner_radius outer_radius width n tooth_depth color)
        (22 * i + q) < 0) := by
  obtain ⟨s1, s2, s21, s3⟩ := sin_facts (realDa n) (realDa_pos n (by omega))
    (realDa_le_quarter n hn2)
  have key := locals_winding (gearLocals inner_radius outer_radius width n tooth_depth (i : Int))
    (0.0, 0.0, 0.0) (Real.sin (realDa n)) (Real.sin (2 * realDa n)) (Real.sin (3 * realDa n))
    (by rw [gearLocals_real]
        exact (cos_mul_sin_sub _ _).trans (by ring_nf))
    (by rw [gearLocals_real]
        exact (cos_mul_sin_sub _ _).trans (by ring_nf))
    (by rw [gearLocals_real]
        exact (cos_mul_sin_sub _ _).trans (by ring_nf))
    (by rw [gearLocals_real]
        exact (cos_mul_sin_sub _ _).trans (by ring_nf))
    (by rw [gearLocals_real]
        exact (cos_mul_sin_sub _ _).trans (by ring_nf))
    (by rw [gearLocals_real]
        exact (cos_mul_sin_sub _ _).trans (by ring_nf))
    (by rw [gearLocals_real]
        exact (cos_mul_sin_sub _ _).trans (by ring_nf))
    s1 s2 s21 s3
    (by rw [gearLocals_real]; exact h0)
    (by rw [gearLocals_real]; exact h1)
    (by rw [gearLocals_real]; exact h2) q
  constructor
  · intro hq
    rw [gear_triangle_crossZ _ _ _ _ _ _ i q hn hi (by omega)]
    exact key.1 hq
  · intro hq1 hq2
    rw [gear_triangle_crossZ _ _ _ _ _ _ i q hn hi (by omega)]
    exact key.2 hq1 hq2

/-- C13 fails on the code: in `gear(1.0, 4.0, 1.0, 20, 0.7)`, the red gear,
the first back-face triangle (triangle 6, index entries 18, 19, 20) has a
geometric normal `(b - a) x (c - a)` with positive z component although its
three vertices store the normal `(0, 0, -1)`; the back tooth flank (triangle
10) is wound the other way, with negative z component, and the front face
(triangle 0) has positive z component. -/
theorem gear_back_face_winding :
    0 < triangleCrossZ (gear (1.0 : ℝ) 4.0 1.0 (20 : Nat) 0.7 (0.8, 0.1, 0.0, 1.0)) 6
    ∧ ((gear (1.0 : ℝ) 4.0 1.0 (20 : Nat) 0.7 (0.8, 0.1, 0.0, 1.0)).vertices
        ((gear (1.0 : ℝ) 4.0 1.0 (20 : Nat) 0.7 (0.8, 0.1, 0.0, 1.0)).indices (3 * 6))).norm
        = (0, 0, -1)
    ∧ ((gear (1.0 : ℝ) 4.0 1.0 (20 : Nat) 0.7 (0.8, 0.1, 0.0, 1.0)).vertices
        ((gear (1.0 : ℝ) 4.0 1.0 (20 : Nat) 0.7 (0.8, 0.1, 0.0, 1.0)).indices (3 * 6 + 1))).norm
        = (0, 0, -1)
    ∧ ((gear (1.0 : ℝ) 4.0 1.0 (20 : Nat) 0.7 (0.8, 0.1, 0.0, 1.0)).vertices
        ((gear (1.0 : ℝ) 4.0 1.0 (20 : Nat) 0.7 (0.8, 0.1, 0.0, 1.0)).indices (3 * 6 + 2))).norm
        = (0, 0, -1)
    ∧ triangleCrossZ (gear (1.0 : ℝ) 4.0 1.0 (20 : Nat) 0.7 (0.8, 0.1, 0.0, 1.0)) 10 < 0
    ∧ 0 < triangleCrossZ (gear (1.0 : ℝ) 4.0 1.0 (20 : Nat) 0.7 (0.8, 0.1, 0.0, 1.0)) 0 := by
  have W := fun q => gear_z_face_winding 1.0 4.0 1.0 20 0.7 (0.8, 0.1, 0.0, 1.0) 0 q
    (by decide) (by decide) (by norm_num) (by norm_num) (by norm_num) (by decide)
  have N := fun m hm => gear_triangle_normal (1.0 : ℝ) 4.0 1.0 20 0.7 (0.8, 0.1, 0.0, 1.0) 0 m
    (by decide) (by decide) hm
  have h00 : (0.0 : ℝ) = 0 := by norm_num
  have h10 : (1.0 : ℝ) = 1 := by norm_num
  refine ⟨(W 6).1 (by decide), ?_, ?_, ?_, (W 10).2 (by decide) (by decide),
    (W 0).1 (by decide)⟩
  · rw [show 3 * 6 = 66 * 0 + 18 by decide, N 18 (by decide), ← h00, ← h10]; rfl
  · rw [show 3 * 6 + 1 = 66 * 0 + 19 by decide, N 19 (by decide), ← h00, ← h10]; rfl
  · rw [show 3 * 6 + 2 = 66 * 0 + 20 by decide, N 20 (by decide), ← h00, ← h10]; rfl

end GlesGears

/-! ## The OpenCL demo: theorems -/

namespace ClExample

theorem runKernel_pointwise (f : Nat → Int → Int) (schedule : List Nat)
    (hnd : schedule.Nodup) (mem : Nat → Int) (j : Nat) :
    runKernel schedule (fun gid m => put m gid (f gid (m gid))) mem j
      = if j ∈ schedule then f j (mem j) else mem j := by
  induction schedule generalizing mem with
  | nil => simp [runKernel]
  | cons g gs ih =>
    have hg : g ∉ gs := (List.nodup_cons.1 hnd).1
    have hgs : gs.Nodup := (List.nodup_cons.1 hnd).2
    show runKernel gs _ (put mem g (f g (mem g))) j = _
    rw [ih hgs]
    by_cases hj : j = g
    · subst hj
      simp [hg, put]
    · have : j ∈ g :: gs ↔ j ∈ gs := by simp [hj]
      simp only [this, put, if_neg hj]

theorem runKernel_range (f : Nat → Int → Int) (size : Nat) (schedule : List Nat)
    (hs : schedule.Perm (List.range size)) (mem : Nat → Int) (j : Nat) :
    runKernel schedule (fun gid m => put m gid (f gid (m gid))) mem j
      = if j < size then f j (mem j) else mem j := by
  rw [runKernel_pointwise f schedule (hs.nodup_iff.2 (List.nodup_range size))]
  simp only [hs.mem_iff, List.mem_range]

theorem Compute_apply (in_array out_array : Nat → Int) (size : Nat) (mem1 mem2 : Nat → Int)
    (s1 s2 s3 : List Nat) (h1 : s1.Perm (List.range size)) (h2 : s2.Perm (List.range size))
    (h3 : s3.Perm (List.range size)) (i : Nat) (hi : i < size) :
    Compute in_array out_array size mem1 mem2 s1 s2 s3 i
      = wrapInt (wrapInt (wrapInt (in_array i * in_array i) + in_array i) + kAdd) := by
  have e3 : ∀ mem j, runKernel s3 (fun gid m => add_const gid m kAdd) mem j
      = if j < size then wrapInt (mem j + kAdd) else mem j :=
    fun mem j => runKernel_range (fun _ x => wrapInt (x + kAdd)) size s3 h3 mem j
  have e2 : ∀ other mem j, runKernel s2 (fun gid m => add_arrays gid m other) mem j
      = if j < size then wrapInt (mem j + other j) else mem j :=
    fun other mem j => runKernel_range (fun gid x => wrapInt (x + other gid)) size s2 h2 mem j
  have e1 : ∀ mem j, runKernel s1 square mem j
      = if j < size then wrapInt (mem j * mem j) else mem j :=
    fun mem j => runKernel_range (fun _ x => wrapInt (x * x)) size s1 h1 mem j
  simp only [Compute, copyBuffer, if_pos hi, e3, e2, e1]

theorem wrapInt_of_range (z : Int) (h1 : -2147483648 ≤ z) (h2 : z < 2147483648) :
    wrapInt z = z := by
  unfold wrapInt
  omega

theorem mainArrays_apply (input0 expected0 : Nat → Int) (i : Nat) (hi : i < kArraySize) :
    (mainArrays input0 expected0).1 i = (i : Int)
    ∧ (mainArrays input0 expected0).2 i
        = wrapInt (wrapInt (wrapInt ((i : Int) * (i : Int)) + (i : Int)) + kAdd) := by
  unfold mainArrays
  generalize kArraySize = n at hi
  induction n with
  | zero => omega
  | succ n ih =>
    rw [List.range_succ, List.foldl_append]
    simp only [List.foldl_cons, List.foldl_nil, put]
    by_cases h : i = n
    · subst h
      simp
    · simp only [if_neg h]
      exact ih (by omega)

theorem compareFrom_eq (arr1 arr2 : Nat → Int) (k i : Nat)
    (h : ∀ j, i ≤ j → j < i + k → arr1 j = arr2 j) : compareFrom arr1 arr2 k i = 1 := by
  induction k generalizing i with
  | zero => rfl
  | succ k ih =>
    rw [compareFrom, if_neg (by simpa using h i (le_refl i) (by omega))]
    exact ih (i + 1) (fun j h1 h2 => h j (by omega) (by omega))

theorem small_no_overflow (i : Nat) (hi : i < 1024) :
    wrapInt (wrapInt (wrapInt ((i : Int) * (i : Int)) + (i : Int)) + 2)
      = (i : Int) * i + i + 2
    ∧ (0 : Int) ≤ (i : Int) * i ∧ (i : Int) * i + i + 2 < 2147483648 := by
  have h0 : (0 : Int) ≤ i := Int.ofNat_nonneg i
  have h1 : (i : Int) ≤ 1023 := by omega
  have h2 : (i : Int) * i ≤ 1023 * 1023 := by nlinarith
  have h3 : (0 : Int) ≤ (i : Int) * i := by nlinarith
  have w1 : wrapInt ((i : Int) * i) = (i : Int) * i :=
    wrapInt_of_range _ (by omega) (by omega)
  have w2 : wrapInt ((i : Int) * i + i) = (i : Int) * i + i :=
    wrapInt_of_range _ (by omega) (by omega)
  have w3 : wrapInt ((i : Int) * i + i + 2) = (i : Int) * i + i + 2 :=
    wrapInt_of_range _ (by omega) (by omega)
  rw [w1, w2, w3]
  exact ⟨rfl, h3, by omega⟩

/-- C11: for every input array, whatever the order in which the device runs
the work items, the kernel sequence of `Compute` (`square` on buffer 1, then
`add_arrays` adding the untouched copy of the input in buffer 2, then
`add_const` with `kAdd = 2`) leaves in output element `i` the `int` value of
`x * x + x + 2` for the input element `x`, which is the integer
`x * x + x + 2` whenever no step overflows; for `i` in `0 .. 1023` the input
of `main` is `input_arr[i] = i`, the result is
`i * i + i + 2 = expected_result_arr[i]` without 32-bit overflow, and
`CompareArrays(expected_result_arr, result, 1024)` returns 1. -/
theorem compute_matches_expected (input0 expected0 out0 mem1 mem2 : Nat → Int)
    (s1 s2 s3 : List Nat) (h1 : s1.Perm (List.range kArraySize))
    (h2 : s2.Perm (List.range kArraySize)) (h3 : s3.Perm (List.range kArraySize)) :
    (∀ (in_array out_array : Nat → Int) (i : Nat), i < kArraySize →
        Compute in_array out_array kArraySize mem1 mem2 s1 s2 s3 i
            = wrapInt (wrapInt (wrapInt (in_array i * in_array i) + in_array i) + 2)
        ∧ (-2147483648 ≤ in_array i * in_array i → in_array i * in_array i < 2147483648 →
            -2147483648 ≤ in_array i * in_array i + in_array i →
            in_array i * in_array i + in_array i + 2 < 2147483648 →
            Compute in_array out_array kArraySize mem1 mem2 s1 s2 s3 i
              = in_array i * in_array i + in_array i + 2))
    ∧ (∀ i : Nat, i < 1024 →
        (mainArrays input0 expected0).1 i = (i : Int)
        ∧ (mainArrays input0 expected0).2 i = (i : Int) * i + i + kAdd
        ∧ Compute (mainArrays input0 expected0).1 out0 kArraySize mem1 mem2 s1 s2 s3 i
            = (i : Int) * i + i + 2
        ∧ (0 : Int) ≤ (i : Int) * i ∧ (i : Int) * i + i + 2 < 2147483648)
    ∧ CompareArrays (mainArrays input0 expected0).2
        (Compute (mainArrays input0 expected0).1 out0 kArraySize mem1 mem2 s1 s2 s3) 1024
        = 1 := by
  have main : ∀ i : Nat, i < 1024 →
        (mainArrays input0 expected0).1 i = (i : Int)
        ∧ (mainArrays input0 expected0).2 i = (i : Int) * i + i + kAdd
        ∧ Compute (mainArrays input0 expected0).1 out0 kArraySize mem1 mem2 s1 s2 s3 i
            = (i : Int) * i + i + 2
        ∧ (0 : Int) ≤ (i : Int) * i ∧ (i : Int) * i + i + 2 < 2147483648 := by
    intro i hi
    obtain ⟨a1, a2⟩ := mainArrays_apply input0 expected0 i hi
    obtain ⟨b1, b2, b3⟩ := small_no_overflow i hi
    refine ⟨a1, ?_, ?_, b2, b3⟩
    · rw [a2]; exact b1
    · rw [Compute_apply _ _ _ _ _ _ _ _ h1 h2 h3 i hi, a1]; exact b1
  refine ⟨?_, main, ?_⟩
  · intro in_array out_array i hi
    have e := Compute_apply in_array out_array kArraySize mem1 mem2 s1 s2 s3 h1 h2 h3 i hi
    refine ⟨e, ?_⟩
    intro c1 c2 c3 c4
    have w1 := wrapInt_of_range _ c1 c2
    have w2 := wrapInt_of_range _ c3 (show in_array i * in_array i + in_array i < 2147483648
      by omega)
    have w3 := wrapInt_of_range _ (show -2147483648 ≤ in_array i * in_array i + in_array i + 2
      by omega) c4
    rw [e, kAdd, w1, w2, w3]
  · apply compareFrom_eq
    intro j _ hj
    have hj2 : j < 1024 := by simpa using hj
    obtain ⟨_, m2, m3, _⟩ := main j hj2
    rw [m2, m3]; rfl

/-- C11 with the work items run in ascending order and all memory zero at the
start. -/
theorem compute_matches_expected_witness :
    CompareArrays (mainArrays (fun _ => 0) (fun _ => 0)).2
      (Compute (mainArrays (fun _ => 0) (fun _ => 0)).1 (fun _ => 0) kArraySize
        (fun _ => 0) (fun _ => 0) (List.range kArraySize) (List.range kArraySize)
        (List.range kArraySize)) 1024 = 1 :=
  (compute_matches_expected (fun _ => 0) (fun _ => 0) (fun _ => 0) (fun _ => 0) (fun _ => 0)
    (List.range kArraySize) (List.range kArraySize) (List.range kArraySize)
    (List.Perm.refl _) (List.Perm.refl _) (List.Perm.refl _)).2.2

end ClExample
